import Mathlib

/-!
# Verification of the TicketingSystem booking & reservation engine

A shallow embedding of the booking/payment services of the TicketingSystem
repository (`app/services/booking_service.py`, `app/services/payment_service.py`,
`app/services/invoices_service.py`) together with the SQLAlchemy data model they
operate on (`app/domain/.../models.py`).

Modelling conventions:
* The database is a record of lists of rows; SQL `SELECT ... WHERE` becomes
  `List.find?` / `List.filter` over row predicates, `UPDATE` becomes `List.map`
  over rows, `DELETE` becomes `List.filter`.
* `Decimal(10,2)` money values are integers counted in cents;
  `Decimal(3,2)` VAT multipliers are integers counted in hundredths.
* Timestamps are integers counted in minutes (the only time arithmetic in the
  engine is `timedelta(minutes=15)`).
* Nullable columns are `Option`; SQL three-valued comparisons against `NULL`
  evaluate to false, which `optLT` / `optGE` reproduce.
* A service call is a pure function `DB → Except AppError (result × DB)`.
  A raised exception aborts the enclosing transaction, so on `Except.error` no
  state change survives — exactly the rollback semantics of the services.
* The services run inside one transaction each; row locks (`with_for_update`,
  `skip_locked`) serialise concurrent calls and are identities in this
  single-transaction model.
-/

namespace Ticketing

/-- `OrderStatus` enum from `app/domain/booking/models.py`. -/
inductive OrderStatus where
  | PENDING
  | AWAITING_PAYMENT
  | COMPLETED
  | CANCELLED
deriving DecidableEq, Repr

/-- `PaymentStatus` enum: the database enum carries the four values
`PENDING`, `REQUIRES_ACTION` (added by migration `1f90a27c7d5a`),
`COMPLETED`, `FAILED`; the services compare against all four. -/
inductive PaymentStatus where
  | PENDING
  | REQUIRES_ACTION
  | COMPLETED
  | FAILED
deriving DecidableEq, Repr

/-- `EventStatus` enum from `app/domain/events/models.py`. -/
inductive EventStatus where
  | PLANNED
  | ON_SALE
  | ENDED
  | CANCELLED
deriving DecidableEq, Repr

/-- The typed error taxonomy of `app/domain/exceptions.py` (the subset raised
by the booking/payment services). -/
inductive AppError where
  | notFound (msg : String)
  | conflict (msg : String)
  | invalidInput (msg : String)
  | unprocessable (msg : String)
deriving DecidableEq, Repr

/-- `Event` row (`app/domain/events/models.py`), the columns the booking
engine reads. -/
structure Event where
  id : Nat
  status : EventStatus
  sales_start : Int
  sales_end : Int
  max_tickets_per_user : Option Nat
  holder_data_required : Bool
deriving DecidableEq, Repr

/-- `Sector` row (`app/domain/venues/models.py`): GA / seated flag. -/
structure Sector where
  id : Nat
  is_ga : Bool
deriving DecidableEq, Repr

/-- `EventSector` row (`app/domain/allocation/models.py`).  `tickets_left`
is a nullable integer column (NULL for seated sectors) with check constraint
`tickets_left >= 0`. -/
structure EventSector where
  id : Nat
  event_id : Nat
  sector_id : Nat
  tickets_left : Option Int
deriving DecidableEq, Repr

/-- `TicketType` row (`app/domain/pricing/models.py`). -/
structure TicketType where
  id : Nat
  name : String
deriving DecidableEq, Repr

/-- `EventTicketType` row (`app/domain/pricing/models.py`); prices in cents,
VAT multiplier in hundredths (check constraints: `price_net >= 0`,
`vat_rate >= 1.00`). -/
structure EventTicketType where
  id : Nat
  event_sector_id : Nat
  ticket_type_id : Nat
  price_net : Int
  vat_rate : Int
deriving DecidableEq, Repr

/-- `Seat` row (`app/domain/venues/models.py`), the columns the engine reads. -/
structure Seat where
  id : Nat
  sector_id : Nat
deriving DecidableEq, Repr

/-- `Order` row (`app/domain/booking/models.py`).  `total_price` is
non-nullable with server default 0 and check `total_price >= 0`;
`reserved_until` is nullable. -/
structure Order where
  id : Nat
  user_id : Nat
  total_price : Int
  reserved_until : Option Int
  status : OrderStatus
  invoice_requested : Bool
deriving DecidableEq, Repr

/-- `TicketInstance` row (`app/domain/booking/models.py`) with its price
snapshot columns and the `UNIQUE(event_id, seat_id)` constraint modelled in
the reservation code. -/
structure TicketInstance where
  id : Nat
  event_ticket_type_id : Nat
  seat_id : Option Nat
  event_id : Nat
  order_id : Nat
  price_net_snapshot : Int
  vat_rate_snapshot : Int
  price_gross_snapshot : Int
  ticket_type_name_snapshot : String
deriving DecidableEq, Repr

/-- `TicketHolder` row, reduced to the keys the engine queries. -/
structure TicketHolder where
  id : Nat
  ticket_instance_id : Nat
deriving DecidableEq, Repr

/-- `Ticket` row (issued ticket code); code generation is outside the claims,
only the link to the ticket instance is kept. -/
structure Ticket where
  id : Nat
  ticket_instance_id : Nat
deriving DecidableEq, Repr

/-- `Payment` row (`app/domain/payments/models.py`); `idempotency_key` is
unique, `amount` is cents. -/
structure Payment where
  id : Nat
  order_id : Nat
  payment_method_id : Nat
  amount : Int
  provider : String
  status : PaymentStatus
  idempotency_key : String
  paid_at : Option Int
deriving DecidableEq, Repr

/-- `PaymentMethod` row. -/
structure PaymentMethod where
  id : Nat
  name : String
  is_active : Bool
deriving DecidableEq, Repr

/-- `Invoice` row, reduced to the columns `finalize_payment` touches. -/
structure Invoice where
  id : Nat
  order_id : Nat
  invoice_number : Option String
  issued_at : Option Int
deriving DecidableEq, Repr

/-- `invoice_counters` table row (`app/domain/booking/counters.py`). -/
structure InvoiceCounter where
  fiscal_year : Int
  counter : Nat
deriving DecidableEq, Repr

/-- The transactional database state: one list of rows per table, plus the
`Identity` sequences for generated primary keys. -/
structure DB where
  events : List Event
  sectors : List Sector
  event_sectors : List EventSector
  ticket_types : List TicketType
  event_ticket_types : List EventTicketType
  seats : List Seat
  orders : List Order
  ticket_instances : List TicketInstance
  ticket_holders : List TicketHolder
  tickets : List Ticket
  payments : List Payment
  payment_methods : List PaymentMethod
  invoices : List Invoice
  invoice_counters : List InvoiceCounter
  next_order_id : Nat
  next_ticket_instance_id : Nat
  next_payment_id : Nat
  next_ticket_id : Nat
deriving DecidableEq, Repr

/-- SQL three-valued `x < t` on a nullable timestamp: `NULL < t` is not true. -/
def optLT : Option Int → Int → Bool
  | some x, t => x < t
  | none, _ => false

/-- SQL three-valued `x >= t` on a nullable timestamp: `NULL >= t` is not true. -/
def optGE : Option Int → Int → Bool
  | some x, t => x ≥ t
  | none, _ => false

/-- Replace the order row with primary key `oid`. -/
def updateOrderById (db : DB) (oid : Nat) (f : Order → Order) : DB :=
  { db with orders := db.orders.map (fun o => if o.id = oid then f o else o) }

/-- Replace the payment row with primary key `pid`. -/
def updatePaymentById (db : DB) (pid : Nat) (f : Payment → Payment) : DB :=
  { db with payments := db.payments.map (fun p => if p.id = pid then f p else p) }

/-! ## `app/services/booking_service.py` — helpers -/

/-- `RESERVATION_MINUTES = 15`. -/
def RESERVATION_MINUTES : Int := 15

/-- `_extend_reservation`: `order.reserved_until =
max(order.reserved_until, now + minutes) if order.reserved_until else now + minutes`. -/
def extend_reservation (order : Order) (now : Int) (minutes : Int := RESERVATION_MINUTES) : Order :=
  let target := now + minutes
  { order with reserved_until :=
      match order.reserved_until with
      | some ru => some (max ru target)
      | none => some target }

/-- `_bump_total`: add `delta` to the order total, clamping at zero
(`new_price if new_price > 0 else Decimal("0")`). -/
def bump_total (order : Order) (delta : Int) : Order :=
  let new_price := order.total_price + delta
  { order with total_price := if new_price > 0 then new_price else 0 }

/-- `_gross_price`: `(price_net * vat_rate).quantize(CENT, ROUND_HALF_UP)`.
With cents × hundredths the product is in units of 1/10000 currency; half-up
quantisation to cents of a non-negative product is `(x + 50) / 100` (the
check constraints keep `price_net ≥ 0` and `vat_rate ≥ 1.00`). -/
def gross_price (price_net vat_rate : Int) : Int :=
  (price_net * vat_rate + 50) / 100

/-- `tickets_left > 0` in SQL: false on NULL. -/
def tlPos : Option Int → Bool
  | some v => v > 0
  | none => false

/-- `_ga_decrement`: `UPDATE event_sectors SET tickets_left = tickets_left - 1
WHERE id = :id AND tickets_left > 0 RETURNING tickets_left`; if no row
qualified the returned value is NULL and a `Conflict("No tickets left")` is
raised (rolling the transaction back). -/
def ga_decrement (db : DB) (event_sector_id : Nat) : Except AppError DB :=
  if db.event_sectors.any (fun es => es.id == event_sector_id && tlPos es.tickets_left) then
    .ok { db with event_sectors := db.event_sectors.map (fun es =>
      if es.id == event_sector_id && tlPos es.tickets_left
      then { es with tickets_left := es.tickets_left.map (· - 1) } else es) }
  else
    .error (.conflict "No tickets left")

/-- `_ga_increment`: `UPDATE event_sectors SET tickets_left = tickets_left + count
WHERE id = :id` (unconditional; `NULL + count` stays NULL). -/
def ga_increment (db : DB) (event_sector_id : Nat) (count : Int) : DB :=
  { db with event_sectors := db.event_sectors.map (fun es =>
      if es.id == event_sector_id
      then { es with tickets_left := es.tickets_left.map (· + count) } else es) }

/-! ## `app/services/booking_service.py` — lookups -/

/-- `_require_event_on_sale_status`: select the event with `status = ON_SALE`,
then check the sales window. -/
def require_event_on_sale_status (db : DB) (event_id : Nat) (now : Int) :
    Except AppError Event :=
  match db.events.find? (fun e => e.id == event_id && e.status == EventStatus.ON_SALE) with
  | none => .error (.notFound "Event not found or sale not started")
  | some event =>
    if event.sales_start > now then .error (.conflict "Sales not started yet")
    else if event.sales_end < now then .error (.conflict "Sales ended")
    else .ok event

/-- `_load_ett_for_event`: `SELECT event_ticket_types JOIN event_sectors
WHERE event_ticket_types.id = :ett AND event_sectors.event_id = :event`. -/
def load_ett_for_event (db : DB) (ett_id event_id : Nat) : Except AppError EventTicketType :=
  match db.event_ticket_types.find? (fun t => t.id == ett_id &&
      db.event_sectors.any (fun es => es.id == t.event_sector_id && es.event_id == event_id)) with
  | none => .error (.unprocessable "Ticket type does not match event")
  | some t => .ok t

/-- `_require_order`: select the user's order with the given status (the
partial unique index `uq_orders_user_active` makes it unique for the open
statuses), raising `NotFound` with the caller's message otherwise. -/
def require_order (db : DB) (user_id : Nat) (status : OrderStatus) (msg : String) :
    Except AppError Order :=
  match db.orders.find? (fun o => o.user_id == user_id && o.status == status) with
  | none => .error (.notFound msg)
  | some o => .ok o

/-- `_require_seat_in_sector`. -/
def require_seat_in_sector (db : DB) (seat_id sector_id : Nat) : Except AppError Seat :=
  match db.seats.find? (fun s => s.id == seat_id) with
  | none => .error (.notFound "Seat not found")
  | some seat =>
    if seat.sector_id != sector_id then .error (.invalidInput "Seat does not match ticket type")
    else .ok seat

/-- The count in `_ensure_user_ticket_limit_not_exceeded`: the user's ticket
instances for the event across PENDING / AWAITING_PAYMENT / COMPLETED orders. -/
def countUserEventInstances (db : DB) (user_id event_id : Nat) : Nat :=
  (db.ticket_instances.filter (fun ti =>
    ti.event_id == event_id &&
    db.orders.any (fun o => o.id == ti.order_id && o.user_id == user_id &&
      (o.status == OrderStatus.PENDING || o.status == OrderStatus.AWAITING_PAYMENT ||
       o.status == OrderStatus.COMPLETED)))).length

/-- `_ensure_user_ticket_limit_not_exceeded`. -/
def ensure_user_ticket_limit_not_exceeded (db : DB) (user_id : Nat) (event : Event) :
    Except AppError Unit :=
  match event.max_tickets_per_user with
  | none => .ok ()
  | some cap =>
    if countUserEventInstances db user_id event.id + 1 > cap then
      .error (.invalidInput "Ticket limit for this event exceeded")
    else .ok ()

/-- `_require_cart_has_items`. -/
def require_cart_has_items (db : DB) (order_id : Nat) : Except AppError Unit :=
  if db.ticket_instances.any (fun ti => ti.order_id == order_id) then .ok ()
  else .error (.invalidInput "Cart is empty")

/-- `_require_no_missing_holders`: an instance of the order whose event has
`holder_data_required` and that has no ticket-holder row. -/
def require_no_missing_holders (db : DB) (order_id : Nat) : Except AppError Unit :=
  if db.ticket_instances.any (fun ti => ti.order_id == order_id &&
      db.events.any (fun e => e.id == ti.event_id && e.holder_data_required) &&
      !db.ticket_holders.any (fun th => th.ticket_instance_id == ti.id)) then
    .error (.invalidInput "Missing holder data")
  else .ok ()

/-- `_require_not_expired`: `order.reserved_until < now` raises Conflict. -/
def require_not_expired (order : Order) (now : Int) : Except AppError Unit :=
  if optLT order.reserved_until now then .error (.conflict "Reservation expired")
  else .ok ()

/-- Follow the `EventTicketType.event_sector.sector` relationship chain; the
foreign keys make the `none` cases unreachable on a referentially intact
database, they are mapped to `NotFound` so the function stays total. -/
def resolveSector (db : DB) (ett : EventTicketType) : Except AppError (EventSector × Sector) :=
  match db.event_sectors.find? (fun es => es.id == ett.event_sector_id) with
  | none => .error (.notFound "event sector missing")
  | some es =>
    match db.sectors.find? (fun s => s.id == es.sector_id) with
    | none => .error (.notFound "sector missing")
    | some sec => .ok (es, sec)

/-- Follow the `EventTicketType.ticket_type` relationship (same remark). -/
def resolveTicketTypeName (db : DB) (ett : EventTicketType) : Except AppError String :=
  match db.ticket_types.find? (fun tt => tt.id == ett.ticket_type_id) with
  | none => .error (.notFound "ticket type missing")
  | some tt => .ok tt.name

/-- Status predicate of the partial unique index `uq_orders_user_active`
(`status IN ('PENDING', 'AWAITING_PAYMENT')`). -/
def openStatus : OrderStatus → Bool
  | .PENDING => true
  | .AWAITING_PAYMENT => true
  | _ => false

/-- Part 3 of `reserve_ticket`: `INSERT INTO orders (user_id) VALUES (:uid)
ON CONFLICT DO NOTHING` against the partial unique index — a new PENDING
order with the server-default columns is inserted unless the user already has
an order whose status satisfies the index predicate. -/
def upsertPendingOrder (db : DB) (user_id : Nat) : DB :=
  if db.orders.any (fun o => o.user_id == user_id && openStatus o.status) then db
  else
    { db with
      orders := db.orders ++ [{ id := db.next_order_id, user_id := user_id,
                                total_price := 0, reserved_until := none,
                                status := .PENDING, invoice_requested := false }],
      next_order_id := db.next_order_id + 1 }

/-- The `UNIQUE(event_id, seat_id)` probe: inserting a seated instance flushes
with `IntegrityError` exactly when a row with the same event and seat exists
(SQL UNIQUE ignores NULL seat ids). -/
def seatConflict (db : DB) (event_id seat_id : Nat) : Bool :=
  db.ticket_instances.any (fun ti => ti.event_id == event_id && ti.seat_id == some seat_id)

/-- Shared tail of both branches of Part 5/6 of `reserve_ticket`: insert the
new instance, then `_bump_total` and `_extend_reservation` on the locked
order row. -/
def finishReservation (db : DB) (order : Order) (ti : TicketInstance) (now : Int) :
    Order × TicketInstance × DB :=
  let db1 := { db with
               ticket_instances := db.ticket_instances ++ [ti],
               next_ticket_instance_id := db.next_ticket_instance_id + 1 }
  let order2 := extend_reservation (bump_total order ti.price_gross_snapshot) now
  (order2, ti, updateOrderById db1 order.id (fun _ => order2))

/-- Parts 2–6 of `reserve_ticket` (after the event-status and
awaiting-payment pre-checks of Part 1). -/
def reserve_ticket_main (db : DB) (user_id event_id ett_id : Nat) (seat_id : Option Nat)
    (event : Event) (now : Int) : Except AppError (Order × TicketInstance × DB) := do
  -- Part 2 - ticket type belongs to the event; seat presence matches GA/seated
  let ett ← load_ett_for_event db ett_id event_id
  let (es, sec) ← resolveSector db ett
  if sec.is_ga && seat_id.isSome then
    throw (.invalidInput "GA sector shouldn't include seat")
  if !sec.is_ga && seat_id.isNone then
    throw (.invalidInput "Seat is required for this sector")
  -- Part 3 - create-if-absent the PENDING order, then load it under lock
  let db1 := upsertPendingOrder db user_id
  let order ← require_order db1 user_id .PENDING "No pending order found"
  -- Part 4 - per-user ticket cap
  ensure_user_ticket_limit_not_exceeded db1 user_id event
  let price_net := ett.price_net
  let vat_rate := ett.vat_rate
  let price_gross := gross_price price_net vat_rate
  let ticket_type_name ← resolveTicketTypeName db ett
  -- Part 5/6 - claim inventory, insert the instance, bump total, extend TTL
  if sec.is_ga then
    let db2 ← ga_decrement db1 ett.event_sector_id
    let ti : TicketInstance := { id := db2.next_ticket_instance_id,
                                 event_ticket_type_id := ett_id, seat_id := none,
                                 event_id := event_id, order_id := order.id,
                                 price_net_snapshot := price_net,
                                 vat_rate_snapshot := vat_rate,
                                 price_gross_snapshot := price_gross,
                                 ticket_type_name_snapshot := ticket_type_name }
    return finishReservation db2 order ti now
  else
    match seat_id with
    | none =>
      -- unreachable: excluded by the Part 2 guard above
      throw (.invalidInput "Seat is required for this sector")
    | some sid =>
      let _ ← require_seat_in_sector db1 sid es.sector_id
      if seatConflict db1 event_id sid then
        throw (.conflict "Selected seat is not available")
      let ti : TicketInstance := { id := db1.next_ticket_instance_id,
                                   event_ticket_type_id := ett_id, seat_id := some sid,
                                   event_id := event_id, order_id := order.id,
                                   price_net_snapshot := price_net,
                                   vat_rate_snapshot := vat_rate,
                                   price_gross_snapshot := price_gross,
                                   ticket_type_name_snapshot := ticket_type_name }
      return finishReservation db1 order ti now

/-- `reserve_ticket(db, user, event_id, event_ticket_type_id, seat_id)`.
The two `datetime.now` reads of the source are merged into the single `now`
parameter. -/
def reserve_ticket (db : DB) (user_id event_id ett_id : Nat) (seat_id : Option Nat)
    (now : Int) : Except AppError (Order × TicketInstance × DB) := do
  -- Part 1 - event status and the awaiting-payment pre-check
  let event ← require_event_on_sale_status db event_id now
  match db.orders.find? (fun o => o.user_id == user_id &&
      o.status == OrderStatus.AWAITING_PAYMENT) with
  | some awaiting_order =>
    if optGE awaiting_order.reserved_until now then
      throw (.conflict "Order awaiting payment")
  | none => pure ()
  reserve_ticket_main db user_id event_id ett_id seat_id event now

/-- `remove_ticket_instance(db, user, ticket_instance_id)`. -/
def remove_ticket_instance (db : DB) (user_id ticket_instance_id : Nat) :
    Except AppError DB := do
  let ti ← match db.ticket_instances.find? (fun t => t.id == ticket_instance_id) with
    | none => throw (.notFound "Ticket instance not found")
    | some t => pure t
  let order ← require_order db user_id .PENDING "Item not found in order"
  if order.id != ti.order_id then
    throw (.notFound "Item not found in order")
  let ett ← match db.event_ticket_types.find? (fun t => t.id == ti.event_ticket_type_id) with
    | none => throw (.notFound "event ticket type missing")
    | some t => pure t
  let (_, sec) ← resolveSector db ett
  let db1 := if sec.is_ga then ga_increment db ett.event_sector_id 1 else db
  let order2 := bump_total order (-ti.price_gross_snapshot)
  let db2 := updateOrderById db1 order.id (fun _ => order2)
  return { db2 with
    ticket_instances := db2.ticket_instances.filter (fun t => t.id != ticket_instance_id) }

/-- `process_order(db, user)`: the PENDING → AWAITING_PAYMENT transition. -/
def process_order (db : DB) (user_id : Nat) (now : Int) : Except AppError (Order × DB) := do
  let order ← require_order db user_id .PENDING "No pending order found"
  require_not_expired order now
  require_cart_has_items db order.id
  if order.invoice_requested && !db.invoices.any (fun inv => inv.order_id == order.id) then
    throw (.invalidInput "Invoice data required")
  require_no_missing_holders db order.id
  let order2 := extend_reservation { order with status := .AWAITING_PAYMENT } now
  return (order2, updateOrderById db order.id (fun _ => order2))

/-- `checkout(db, user)`: return the existing unexpired AWAITING_PAYMENT
order unchanged, else run `process_order`. -/
def checkout (db : DB) (user_id : Nat) (now : Int) : Except AppError (Order × DB) := do
  match db.orders.find? (fun o => o.user_id == user_id &&
      o.status == OrderStatus.AWAITING_PAYMENT) with
  | some order =>
    require_not_expired order now
    return (order, db)
  | none => process_order db user_id now

/-- Active (non-terminal) payment rows for an order: status PENDING or
REQUIRES_ACTION. -/
def activePayment (db : DB) (order_id : Nat) : Bool :=
  db.payments.any (fun p => p.order_id == order_id &&
    (p.status == PaymentStatus.PENDING || p.status == PaymentStatus.REQUIRES_ACTION))

/-- `reopen_cart(db, user)`: the AWAITING_PAYMENT → PENDING transition. -/
def reopen_cart (db : DB) (user_id : Nat) (now : Int) : Except AppError (Order × DB) := do
  let order ← require_order db user_id .AWAITING_PAYMENT "No order awaiting payment"
  require_not_expired order now
  if activePayment db order.id then
    throw (.conflict "Payment in progress")
  let order2 := extend_reservation { order with status := .PENDING } now
  return (order2, updateOrderById db order.id (fun _ => order2))

/-! ## `cleanup_expired_reservations` — the reservation reaper -/

/-- The reaper's per-run statistics dictionary. -/
structure CleanupStats where
  orders_cancelled : Nat
  tickets_released : Nat
  ga_released : Nat
deriving DecidableEq, Repr

/-- First claim query: ids of expired PENDING orders, at most `limit` of
them (`FOR UPDATE SKIP LOCKED LIMIT limit`; no other transaction holds locks
in this sequential model, so nothing is skipped). -/
def cleanupPendingIds (db : DB) (now : Int) (limit : Nat) : List Nat :=
  ((db.orders.filter (fun o => o.status == OrderStatus.PENDING &&
      optLT o.reserved_until now)).map (·.id)).take limit

/-- Second claim query: ids of expired AWAITING_PAYMENT orders with no
active payment, at most `limit` of them (the caller passes
`max(0, limit - len(pending_ids))`, which is `Nat` subtraction). -/
def cleanupAwaitingIds (db : DB) (now : Int) (limit : Nat) : List Nat :=
  ((db.orders.filter (fun o => o.status == OrderStatus.AWAITING_PAYMENT &&
      optLT o.reserved_until now && !activePayment db o.id)).map (·.id)).take limit

/-- The per-instance GA join of the reaper's GROUP BY: `TicketInstance →
EventTicketType → EventSector → Sector`, keeping `Sector.is_ga` rows and
yielding the `EventSector.id` the instance was drawn from. -/
def instanceGaSector (db : DB) (ti : TicketInstance) : Option Nat :=
  match db.event_ticket_types.find? (fun t => t.id == ti.event_ticket_type_id) with
  | none => none
  | some ett =>
    match db.event_sectors.find? (fun es => es.id == ett.event_sector_id) with
    | none => none
    | some es =>
      match db.sectors.find? (fun s => s.id == es.sector_id) with
      | none => none
      | some sec => if sec.is_ga then some es.id else none

/-- One group row of the reaper's GROUP BY: the order's GA instances drawn
from the given event sector. -/
def gaCount (db : DB) (order_id event_sector_id : Nat) : Nat :=
  (db.ticket_instances.filter (fun ti => ti.order_id == order_id &&
    instanceGaSector db ti == some event_sector_id)).length

/-- Total GA instances of the order (the sum of the group counts, which is
what the run adds to the `ga_released` statistic). -/
def gaTotal (db : DB) (order_id : Nat) : Nat :=
  (db.ticket_instances.filter (fun ti => ti.order_id == order_id &&
    (instanceGaSector db ti).isSome)).length

/-- The batch of `UPDATE event_sectors SET tickets_left = tickets_left + cnt`
statements for one order's group rows.  Sectors outside the GROUP BY result
have count 0 and adding 0 leaves them unchanged, so the row-set union is
modelled by mapping over every sector. -/
def releaseOrderGA (db : DB) (order_id : Nat) : DB :=
  { db with event_sectors := db.event_sectors.map (fun es =>
      let cnt : Int := gaCount db order_id es.id
      if cnt > 0 then { es with tickets_left := es.tickets_left.map (· + cnt) } else es) }

/-- The loop body of `cleanup_expired_reservations` for one claimed order:
release its GA counts, delete its line items, mark it CANCELLED, and account
the statistics. -/
def cleanupOrder (db : DB) (order_id : Nat) (stats : CleanupStats) : DB × CleanupStats :=
  let ga := gaTotal db order_id
  let db1 := releaseOrderGA db order_id
  let deleted := (db1.ticket_instances.filter (fun ti => ti.order_id == order_id)).length
  let db2 := { db1 with
               ticket_instances := db1.ticket_instances.filter (fun ti => ti.order_id != order_id) }
  let db3 := updateOrderById db2 order_id (fun o => { o with status := .CANCELLED })
  (db3, { orders_cancelled := stats.orders_cancelled + 1,
          tickets_released := stats.tickets_released + deleted,
          ga_released := stats.ga_released + ga })

/-- The complete batch one reaper run claims: the expired PENDING ids
followed by the expired no-active-payment AWAITING_PAYMENT ids, the latter
limited to the remaining budget. -/
def sweptIds (db : DB) (now : Int) (limit : Nat) : List Nat :=
  let pending_ids := cleanupPendingIds db now limit
  pending_ids ++ cleanupAwaitingIds db now (limit - pending_ids.length)

/-- `cleanup_expired_reservations(db, limit=500)`. -/
def cleanup_expired_reservations (db : DB) (now : Int) (limit : Nat := 500) :
    DB × CleanupStats :=
  (sweptIds db now limit).foldl (fun acc oid => cleanupOrder acc.1 oid acc.2)
    (db, { orders_cancelled := 0, tickets_released := 0, ga_released := 0 })

/-! ## `_normalize_uuid4` — Python's `uuid.UUID(key.strip(), version=4)`

CPython's `uuid.UUID(hex, version=4)` parses the string with
`hex = hex.replace('urn:', '').replace('uuid:', '')`,
`hex = hex.strip('{}').replace('-', '')`, requires 32 hex digits, converts
them with `int(hex, 16)`, and then — because `version` was passed — it
*overwrites* the variant and version bits of the parsed value; it never
checks that the input actually carried version 4.  The model mirrors this
on `List Char`.  (`int(hex, 16)` also tolerates a leading sign and inner
underscores; those shapes are not UUID-relevant and are modelled as
rejections.) -/

/-- Python `str.strip()` whitespace (the ASCII subset). -/
def isPySpace (c : Char) : Bool :=
  c == ' ' || c == '\t' || c == '\n' || c == '\r' || c == '\x0b' || c == '\x0c'

/-- Python `str.strip()`. -/
def pyStrip (s : List Char) : List Char :=
  ((s.dropWhile isPySpace).reverse.dropWhile isPySpace).reverse

/-- Python `str.strip('\x7b\x7d')`: drop leading/trailing brace characters. -/
def isBrace (c : Char) : Bool := c == '\x7b' || c == '\x7d'

def stripBraces (s : List Char) : List Char :=
  ((s.dropWhile isBrace).reverse.dropWhile isBrace).reverse

/-- Python `str.replace(pat, '')`, fuel-structured so that it reduces by
`decide`/`rfl`; `removePat` supplies fuel `s.length`, enough for the whole
scan. -/
def removePatFuel (pat : List Char) : Nat → List Char → List Char
  | _, [] => []
  | 0, s => s
  | fuel + 1, c :: rest =>
    if !pat.isEmpty && pat.isPrefixOf (c :: rest) then
      removePatFuel pat fuel (List.drop (pat.length - 1) rest)
    else
      c :: removePatFuel pat fuel rest

def removePat (pat s : List Char) : List Char := removePatFuel pat s.length s

def hexVal? (c : Char) : Option Nat :=
  let n := c.toNat
  if 48 ≤ n && n ≤ 57 then some (n - 48)
  else if 97 ≤ n && n ≤ 102 then some (n - 87)
  else if 65 ≤ n && n ≤ 70 then some (n - 55)
  else none

/-- `int(hex, 16)` restricted to plain hexadecimal digit strings. -/
def parseHex? (s : List Char) : Option Nat :=
  s.foldl (fun acc c =>
    match acc, hexVal? c with
    | some n, some d => some (n * 16 + d)
    | _, _ => none) (some 0)

/-- The cleaning pipeline of `uuid.UUID.__init__` followed by the 32-digit
length check and hex conversion. -/
def pyUuidInt? (s : List Char) : Option Nat :=
  let hex := (stripBraces (removePat "uuid:".data (removePat "urn:".data s))).filter
    (fun c => c != '-')
  if hex.length == 32 then parseHex? hex else none

def UUID_ALL_BITS : Nat := 2 ^ 128 - 1

/-- The `version=4` branch of `uuid.UUID.__init__`:
`int &= ~(0xc000 << 48); int |= 0x8000 << 48;
 int &= ~(0xf000 << 64); int |= 4 << 76` — it forces the variant/version
bits rather than validating them. -/
def forceVersion4 (n : Nat) : Nat :=
  let n1 := (n &&& (UUID_ALL_BITS ^^^ (0xc000 <<< 48))) ||| (0x8000 <<< 48)
  (n1 &&& (UUID_ALL_BITS ^^^ (0xf000 <<< 64))) ||| (4 <<< 76)

def hexDigitChar (n : Nat) : Char :=
  if n < 10 then Char.ofNat ('0'.toNat + n) else Char.ofNat ('a'.toNat + n - 10)

/-- `'%032x' % int`: 32 lowercase hex digits, most significant first. -/
def hex32 (n : Nat) : List Char :=
  (List.range 32).map (fun i => hexDigitChar ((n >>> (4 * (31 - i))) &&& 15))

/-- `str(u)`: the canonical 8-4-4-4-12 form. -/
def uuidFormat (n : Nat) : String :=
  let h := hex32 n
  String.mk (h.take 8 ++ ['-'] ++ ((h.drop 8).take 4) ++ ['-'] ++ ((h.drop 12).take 4)
    ++ ['-'] ++ ((h.drop 16).take 4) ++ ['-'] ++ h.drop 20)

/-- `_normalize_uuid4(key)` from `app/services/payment_service.py`. -/
def normalize_uuid4 (key : String) : Except AppError String :=
  if key.data.isEmpty || (pyStrip key.data).isEmpty then
    .error (.invalidInput "Idempotency key is required")
  else
    match pyUuidInt? (pyStrip key.data) with
    | none => .error (.invalidInput "Idempotency key must be UUIDv4")
    | some n => .ok (uuidFormat (forceVersion4 n))

/-! ## `app/services/invoices_service.py` — invoice issuance -/

/-- Modelled from the spec: `paid_at_utc.astimezone(ZoneInfo("Europe/Warsaw")).year`
keys the per-fiscal-year counter.  The calendar arithmetic itself is outside
every claim; the year is modelled as an opaque label computed from the
timestamp (here: the timestamp itself), preserving "same instant → same
fiscal year". -/
def warsawYear (t : Int) : Int := t

def pad8 (n : Nat) : String :=
  let s := toString n
  String.mk (List.replicate (8 - s.length) '0') ++ s

/-- `f"\x7byear\x7d-\x7bn:08d\x7d"`. -/
def formatInvoiceNumber (year : Int) (n : Nat) : String :=
  toString year ++ "-" ++ pad8 n

/-- `_next_invoice_number`: `INSERT .. VALUES (year, 1) ON CONFLICT (fiscal_year)
DO UPDATE SET counter = counter + 1 RETURNING counter`. -/
def next_invoice_number (db : DB) (paid_at : Int) : String × DB :=
  let year := warsawYear paid_at
  match db.invoice_counters.find? (fun c => c.fiscal_year == year) with
  | some c =>
    (formatInvoiceNumber year (c.counter + 1),
     { db with invoice_counters := db.invoice_counters.map (fun c2 =>
         if c2.fiscal_year == year then { c2 with counter := c2.counter + 1 } else c2) })
  | none =>
    (formatInvoiceNumber year 1,
     { db with invoice_counters := db.invoice_counters ++ [{ fiscal_year := year, counter := 1 }] })

/-- `issue_invoice_for_order(db, order, paid_at_utc)`: no-op when the order
has no invoice row; otherwise set `issued_at` if null and assign the next
invoice number if null. -/
def issue_invoice_for_order (db : DB) (order_id : Nat) (paid_at : Int) : DB :=
  match db.invoices.find? (fun inv => inv.order_id == order_id) with
  | none => db
  | some inv =>
    let inv1 := if inv.issued_at.isNone then { inv with issued_at := some paid_at } else inv
    if inv1.invoice_number.isNone then
      let r := next_invoice_number db paid_at
      { r.2 with invoices := r.2.invoices.map (fun i =>
          if i.id == inv.id then { inv1 with invoice_number := some r.1 } else i) }
    else
      { db with invoices := db.invoices.map (fun i => if i.id == inv.id then inv1 else i) }

/-! ## `app/services/payment_service.py` — the payment idempotency manager -/

/-- `_issue_tickets`: one `Ticket` row per line item of the order that has
none yet (the anti-join on `Ticket.id IS NULL`); returns the count. -/
def issue_tickets (db : DB) (order_id : Nat) : DB × Nat :=
  let missing := db.ticket_instances.filter (fun ti => ti.order_id == order_id &&
    !db.tickets.any (fun t => t.ticket_instance_id == ti.id))
  ({ db with
     tickets := db.tickets ++ missing.enum.map (fun p =>
       { id := db.next_ticket_id + p.1, ticket_instance_id := p.2.id }),
     next_ticket_id := db.next_ticket_id + missing.length },
   missing.length)

/-- `_require_awaiting_order`: the user's AWAITING_PAYMENT order under lock;
reject expired reservations and non-positive totals. -/
def require_awaiting_order (db : DB) (user_id : Nat) (now : Int) : Except AppError Order :=
  match db.orders.find? (fun o => o.user_id == user_id &&
      o.status == OrderStatus.AWAITING_PAYMENT) with
  | none => .error (.notFound "No order awaiting payment")
  | some order =>
    if optLT order.reserved_until now then .error (.conflict "Reservation expired")
    else if order.total_price ≤ 0 then
      .error (.invalidInput "Order total must be greater than zero")
    else .ok order

/-- `_require_active_payment_method`. -/
def require_active_payment_method (db : DB) (pm_id : Nat) : Except AppError PaymentMethod :=
  match db.payment_methods.find? (fun pm => pm.id == pm_id) with
  | none => .error (.notFound "Payment method not found")
  | some pm =>
    if !pm.is_active then .error (.notFound "Payment method not found")
    else .ok pm

/-- `_redirect_url(payment, idempotency_key)`. -/
def redirect_url (payment_id : Nat) (idempotency_key : String) : String :=
  "/payments/" ++ toString payment_id ++ "/redirect?ik=" ++ idempotency_key

/-- `start_payment(db, user, schema, idempotency_key)`; the result carries
the payment and the optional redirect handle. -/
def start_payment (db : DB) (user_id payment_method_id : Nat) (idempotency_key : String)
    (now : Int) : Except AppError (Payment × Option String × DB) := do
  let key ← normalize_uuid4 idempotency_key
  let order ← require_awaiting_order db user_id now
  let pm ← require_active_payment_method db payment_method_id
  let amount := order.total_price
  match db.payments.find? (fun p => p.idempotency_key == key) with
  | some existing_by_key =>
    if existing_by_key.order_id != order.id ||
        existing_by_key.payment_method_id != pm.id ||
        existing_by_key.amount != amount then
      throw (.conflict "Idempotency key reused for different payload")
    else
      let r := if existing_by_key.status == PaymentStatus.PENDING ||
                  existing_by_key.status == PaymentStatus.REQUIRES_ACTION
               then some (redirect_url existing_by_key.id key) else none
      return (existing_by_key, r, db)
  | none =>
    match db.payments.find? (fun p => p.order_id == order.id &&
        (p.status == PaymentStatus.PENDING ||
         p.status == PaymentStatus.REQUIRES_ACTION)) with
    | some existing_active =>
      if existing_active.payment_method_id == pm.id && existing_active.amount == amount then
        if existing_active.status == PaymentStatus.PENDING ||
            existing_active.status == PaymentStatus.REQUIRES_ACTION then
          return (existing_active,
            some (redirect_url existing_active.id existing_active.idempotency_key), db)
        else
          return (existing_active, none, db)
      else
        throw (.conflict "Active payment already exists for this order")
    | none =>
      let payment : Payment := { id := db.next_payment_id, order_id := order.id,
                                 payment_method_id := pm.id, amount := amount,
                                 provider := "test", status := .REQUIRES_ACTION,
                                 idempotency_key := key, paid_at := none }
      -- flush: the UNIQUE(idempotency_key) probe cannot fire here — no payment
      -- with this key exists (checked above) and the model is sequential.
      return (payment, some (redirect_url payment.id key),
        { db with payments := db.payments ++ [payment],
                  next_payment_id := db.next_payment_id + 1 })

/-- `finalize_payment(db, user, payment_id, success)`. -/
def finalize_payment (db : DB) (user_id payment_id : Nat) (success : Bool) (now : Int) :
    Except AppError (Payment × DB) := do
  -- _require_payment_for_user: payments JOIN orders ON order_id, Order.user_id = :uid
  let payment ← match db.payments.find? (fun p => p.id == payment_id &&
      db.orders.any (fun o => o.id == p.order_id && o.user_id == user_id)) with
    | none => throw (.notFound "Payment not found")
    | some p => pure p
  -- order = payment.order; `if not order or order.status != AWAITING_PAYMENT`
  let order ← match db.orders.find? (fun o => o.id == payment.order_id) with
    | none => throw (.conflict "Order not awaiting payment")
    | some o => pure o
  if order.status != OrderStatus.AWAITING_PAYMENT then
    throw (.conflict "Order not awaiting payment")
  if payment.status == PaymentStatus.COMPLETED || payment.status == PaymentStatus.FAILED then
    return (payment, db)
  if success then
    let payment2 := { payment with status := PaymentStatus.COMPLETED, paid_at := some now }
    let order2 := { order with status := OrderStatus.COMPLETED }
    let db1 := updatePaymentById (updateOrderById db order.id (fun _ => order2))
      payment.id (fun _ => payment2)
    let db2 := if order.invoice_requested &&
        db1.invoices.any (fun inv => inv.order_id == order.id)
      then issue_invoice_for_order db1 order.id now else db1
    let db3 := (issue_tickets db2 order.id).1
    return (payment2, db3)
  else
    let payment2 := { payment with status := PaymentStatus.FAILED }
    return (payment2, updatePaymentById db payment.id (fun _ => payment2))

/-! ## Observation helpers used by the theorems -/

/-- The `tickets_left` column of the event-sector row with primary key `sid`
(`none` when no such row exists). -/
def sectorTicketsLeft (db : DB) (sid : Nat) : Option (Option Int) :=
  (db.event_sectors.find? (fun es => es.id == sid)).map (·.tickets_left)

/-- Primary-key uniqueness of the `event_sectors` table. -/
def esKeysNodup (db : DB) : Prop := (db.event_sectors.map (·.id)).Nodup

/-! ## Lemmas about the GA counter primitives -/

lemma find?_event_sectors_mem {l : List EventSector} {sid : Nat} {es : EventSector}
    (h : l.find? (fun e => e.id == sid) = some es) : es ∈ l ∧ es.id = sid := by
  refine ⟨List.mem_of_find?_eq_some h, ?_⟩
  have := List.find?_some h
  simpa using this

lemma ga_decrement_ok_of_pos {db : DB} {sid : Nat} {es : EventSector} {n : Int}
    (hfind : db.event_sectors.find? (fun e => e.id == sid) = some es)
    (htl : es.tickets_left = some n) (hpos : 0 < n) :
    ga_decrement db sid = .ok { db with event_sectors := db.event_sectors.map (fun e =>
      if e.id == sid && tlPos e.tickets_left
      then { e with tickets_left := e.tickets_left.map (· - 1) } else e) } := by
  obtain ⟨hmem, hid⟩ := find?_event_sectors_mem hfind
  have hany : db.event_sectors.any (fun e => e.id == sid && tlPos e.tickets_left) = true := by
    rw [List.any_eq_true]
    exact ⟨es, hmem, by simp [hid, htl, tlPos, hpos]⟩
  simp [ga_decrement, hany]

lemma ga_decrement_error_of_nonpos {db : DB} {sid : Nat} {es : EventSector} {n : Int}
    (hnd : esKeysNodup db)
    (hfind : db.event_sectors.find? (fun e => e.id == sid) = some es)
    (htl : es.tickets_left = some n) (hnp : n ≤ 0) :
    ga_decrement db sid = .error (.conflict "No tickets left") := by
  obtain ⟨hmem, hid⟩ := find?_event_sectors_mem hfind
  have hinj := List.inj_on_of_nodup_map hnd
  have hany : db.event_sectors.any (fun e => e.id == sid && tlPos e.tickets_left) = false := by
    rw [List.any_eq_false]
    intro e he
    by_cases hide : e.id = sid
    · have : e = es := hinj he hmem (by simp [hide, hid])
      subst this
      simp [htl, tlPos]
      omega
    · simp [hide]
  simp [ga_decrement, hany]

lemma sectorTicketsLeft_after_decrement {db : DB} {sid : Nat} {es : EventSector} {n : Int}
    (hfind : db.event_sectors.find? (fun e => e.id == sid) = some es)
    (htl : es.tickets_left = some n) (hpos : 0 < n) :
    sectorTicketsLeft { db with event_sectors := db.event_sectors.map (fun e =>
      if e.id == sid && tlPos e.tickets_left
      then { e with tickets_left := e.tickets_left.map (· - 1) } else e) } sid
      = some (some (n - 1)) := by
  obtain ⟨_, hid⟩ := find?_event_sectors_mem hfind
  have hcomm : (db.event_sectors.map (fun e =>
      if e.id == sid && tlPos e.tickets_left
      then { e with tickets_left := e.tickets_left.map (· - 1) } else e)).find?
        (fun e => e.id == sid) =
      (db.event_sectors.find? (fun e => e.id == sid)).map (fun e =>
        if e.id == sid && tlPos e.tickets_left
        then { e with tickets_left := e.tickets_left.map (· - 1) } else e) := by
    rw [List.find?_map]
    have hpred : ((fun e : EventSector => e.id == sid) ∘ (fun e =>
        if e.id == sid && tlPos e.tickets_left
        then { e with tickets_left := e.tickets_left.map (· - 1) } else e))
        = (fun e : EventSector => e.id == sid) := by
      funext e
      by_cases hide : e.id = sid
      · simp only [Function.comp]
        split <;> simp [hide]
      · simp [Function.comp, hide]
    rw [hpred]
  simp only [sectorTicketsLeft, hcomm, hfind, Option.map_some]
  simp [hid, htl, tlPos, hpos]

/-- **C1.** For every GA event sector whose `tickets_left` counter is `n`
(with the database invariant `n ≥ 0` and primary-key uniqueness of the
table), the allocator's GA decrement `_ga_decrement` succeeds exactly when
`n > 0`; on success it is the single conditional update leaving the counter
at `n - 1 ≥ 0`, and at `n = 0` it raises the typed
`Conflict "No tickets left"`, which aborts the transaction so the counter is
unchanged.  Hence `tickets_left` never becomes negative. -/
theorem ga_decrement_claim (db : DB) (sid : Nat) (es : EventSector) (n : Int)
    (hnd : esKeysNodup db)
    (hfind : db.event_sectors.find? (fun e => e.id == sid) = some es)
    (htl : es.tickets_left = some n) (hinv : 0 ≤ n) :
    (0 < n → ∃ db', ga_decrement db sid = .ok db' ∧
      sectorTicketsLeft db' sid = some (some (n - 1)) ∧ 0 ≤ n - 1) ∧
    (n = 0 → ga_decrement db sid = .error (.conflict "No tickets left")) ∧
    (∀ db', ga_decrement db sid = .ok db' → 0 < n) := by
  refine ⟨?_, ?_, ?_⟩
  · intro hpos
    refine ⟨_, ga_decrement_ok_of_pos hfind htl hpos, ?_, by omega⟩
    exact sectorTicketsLeft_after_decrement hfind htl hpos
  · intro hz
    exact ga_decrement_error_of_nonpos hnd hfind htl (by omega)
  · intro db' hok
    by_contra hnpos
    rw [ga_decrement_error_of_nonpos hnd hfind htl (by omega)] at hok
    exact Except.noConfusion hok

/-- Witness for C1 at a concrete database: one GA sector with 3 tickets
left. -/
theorem ga_decrement_claim_witness :
    ∃ db', ga_decrement
      { events := [], sectors := [{ id := 1, is_ga := true }],
        event_sectors := [{ id := 7, event_id := 1, sector_id := 1, tickets_left := some 3 }],
        ticket_types := [], event_ticket_types := [], seats := [], orders := [],
        ticket_instances := [], ticket_holders := [], tickets := [], payments := [],
        payment_methods := [], invoices := [], invoice_counters := [],
        next_order_id := 1, next_ticket_instance_id := 1, next_payment_id := 1,
        next_ticket_id := 1 } 7 = .ok db' ∧
      sectorTicketsLeft db' 7 = some (some 2) ∧ (0 : Int) ≤ 2 := by
  have h := ga_decrement_claim
    { events := [], sectors := [{ id := 1, is_ga := true }],
      event_sectors := [{ id := 7, event_id := 1, sector_id := 1, tickets_left := some 3 }],
      ticket_types := [], event_ticket_types := [], seats := [], orders := [],
      ticket_instances := [], ticket_holders := [], tickets := [], payments := [],
      payment_methods := [], invoices := [], invoice_counters := [],
      next_order_id := 1, next_ticket_instance_id := 1, next_payment_id := 1,
      next_ticket_id := 1 } 7
    { id := 7, event_id := 1, sector_id := 1, tickets_left := some 3 } 3
    (by simp [esKeysNodup]) (by rfl) (by rfl) (by omega)
  simpa using h.1 (by omega)

/-! ## Concrete example databases used as witnesses / counterexamples -/

/-- An empty database. -/
def emptyDB : DB :=
  { events := [], sectors := [], event_sectors := [], ticket_types := [],
    event_ticket_types := [], seats := [], orders := [], ticket_instances := [],
    ticket_holders := [], tickets := [], payments := [], payment_methods := [],
    invoices := [], invoice_counters := [], next_order_id := 1,
    next_ticket_instance_id := 1, next_payment_id := 1, next_ticket_id := 1 }

/-- One user with an unexpired AWAITING_PAYMENT order of total 10.00 and an
active payment method; no payments yet. -/
def awaitingDB : DB :=
  { emptyDB with
    orders := [{ id := 1, user_id := 1, total_price := 1000, reserved_until := some 100,
                 status := .AWAITING_PAYMENT, invoice_requested := false }],
    payment_methods := [{ id := 1, name := "card", is_active := true }] }

/-! ## C8 — idempotency-key validation -/

/-- The spec's acceptance predicate, written from its words: the key is a
well-formed **version-4** UUID, i.e. it parses as a UUID and the parsed
128-bit value carries version nibble 4 and an RFC-4122 variant. -/
def isWellFormedUuid4 (s : String) : Bool :=
  match pyUuidInt? (pyStrip s.data) with
  | some n => ((n >>> 76) &&& 15) == 4 && ((n >>> 62) &&& 3) == 2
  | none => false

/-- **C8 (failing input).** The nil UUID "00000000-0000-0000-0000-000000000000"
is not a well-formed version-4 UUID, yet `_normalize_uuid4` accepts it —
Python's `uuid.UUID(key, version=4)` force-sets the version bits instead of
validating them — and `start_payment` then proceeds to create a payment under
the silently rewritten key "00000000-0000-4000-8000-000000000000" instead of
raising `InvalidInput`. -/
theorem start_payment_accepts_non_v4_key :
    isWellFormedUuid4 "00000000-0000-0000-0000-000000000000" = false ∧
    normalize_uuid4 "00000000-0000-0000-0000-000000000000" =
      .ok "00000000-0000-4000-8000-000000000000" ∧
    (start_payment awaitingDB 1 1 "00000000-0000-0000-0000-000000000000" 50).isOk = true := by
  refine ⟨by decide, by rfl, by rfl⟩

/-! ## C3 — replay of `finalize_payment` -/

/-- The order of the state after a successful finalize: COMPLETED order with
its COMPLETED payment. -/
def completedDB : DB :=
  { emptyDB with
    orders := [{ id := 1, user_id := 1, total_price := 1000, reserved_until := some 100,
                 status := .COMPLETED, invoice_requested := false }],
    payments := [{ id := 1, order_id := 1, payment_method_id := 1, amount := 1000,
                   provider := "test", status := .COMPLETED,
                   idempotency_key := "123e4567-e89b-42d3-a456-426614174000",
                   paid_at := some 10 }] }

/-- **C3 (counterexample).** Replaying `finalize_payment` on a payment that
is already COMPLETED is *not* a no-op when its order has moved on: after a
successful finalize the order is COMPLETED, and the replay raises
`Conflict "Order not awaiting payment"` instead of returning the payment
unchanged — the order-status guard precedes the terminal-status no-op check. -/
theorem finalize_payment_replay_not_noop :
    (completedDB.payments.find? (fun p => p.id == 1)).map (·.status) =
      some PaymentStatus.COMPLETED ∧
    finalize_payment completedDB 1 1 false 50 =
      .error (.conflict "Order not awaiting payment") ∧
    finalize_payment completedDB 1 1 true 50 =
      .error (.conflict "Order not awaiting payment") := by
  refine ⟨by decide, by rfl, by rfl⟩

/-- **C3 (amended).** For a payment in a terminal status (COMPLETED or
FAILED) belonging to the user, `finalize_payment` is a replay-safe no-op —
returning the payment unchanged and leaving the database untouched,
regardless of the `success` argument — exactly when its order is still
AWAITING_PAYMENT; when the order has any other status the call instead
raises `Conflict "Order not awaiting payment"`. -/
theorem finalize_payment_terminal_spec (db : DB) (uid pid : Nat) (success : Bool)
    (now : Int) (p : Payment) (o : Order)
    (hp : db.payments.find? (fun q => q.id == pid &&
      db.orders.any (fun o2 => o2.id == q.order_id && o2.user_id == uid)) = some p)
    (ho : db.orders.find? (fun o2 => o2.id == p.order_id) = some o)
    (hterm : p.status = PaymentStatus.COMPLETED ∨ p.status = PaymentStatus.FAILED) :
    (o.status = OrderStatus.AWAITING_PAYMENT →
      finalize_payment db uid pid success now = .ok (p, db)) ∧
    (o.status ≠ OrderStatus.AWAITING_PAYMENT →
      finalize_payment db uid pid success now =
        .error (.conflict "Order not awaiting payment")) := by
  constructor
  · intro hst
    rcases hterm with h | h <;>
      simp [finalize_payment, bind, Except.bind, hp, ho, hst, h, pure, Except.pure]
  · intro hst
    simp [finalize_payment, bind, Except.bind, hp, ho, hst, pure, Except.pure]

/-- Witness for the amended C3: a FAILED payment on an order still awaiting
payment replays as a no-op. -/
theorem finalize_payment_terminal_spec_witness :
    finalize_payment
      { awaitingDB with
        payments := [{ id := 1, order_id := 1, payment_method_id := 1, amount := 1000,
                       provider := "test", status := .FAILED,
                       idempotency_key := "123e4567-e89b-42d3-a456-426614174000",
                       paid_at := none }] } 1 1 true 50 =
      .ok ({ id := 1, order_id := 1, payment_method_id := 1, amount := 1000,
             provider := "test", status := .FAILED,
             idempotency_key := "123e4567-e89b-42d3-a456-426614174000",
             paid_at := none },
           { awaitingDB with
             payments := [{ id := 1, order_id := 1, payment_method_id := 1, amount := 1000,
                            provider := "test", status := .FAILED,
                            idempotency_key := "123e4567-e89b-42d3-a456-426614174000",
                            paid_at := none }] }) := by
  exact (finalize_payment_terminal_spec
    { awaitingDB with
      payments := [{ id := 1, order_id := 1, payment_method_id := 1, amount := 1000,
                     provider := "test", status := .FAILED,
                     idempotency_key := "123e4567-e89b-42d3-a456-426614174000",
                     paid_at := none }] } 1 1 true 50
    { id := 1, order_id := 1, payment_method_id := 1, amount := 1000,
      provider := "test", status := .FAILED,
      idempotency_key := "123e4567-e89b-42d3-a456-426614174000", paid_at := none }
    { id := 1, user_id := 1, total_price := 1000, reserved_until := some 100,
      status := .AWAITING_PAYMENT, invoice_requested := false }
    (by decide) (by decide) (Or.inr rfl)).1 rfl

/-! ## C2 — idempotent `start_payment` replay -/

/-- **C2.** For an AWAITING_PAYMENT order (loaded by `_require_awaiting_order`,
i.e. unexpired with positive total), when a payment already exists under the
normalized idempotency key: if its (order, method, amount) equals the current
request the call returns that payment unchanged with the database untouched
(no new Payment row); if any of the three differs it raises
`Conflict "Idempotency key reused for different payload"`. -/
theorem start_payment_idempotent_replay (db : DB) (uid pmid : Nat) (rawKey key : String)
    (now : Int) (order : Order) (pm : PaymentMethod) (p : Payment)
    (hkey : normalize_uuid4 rawKey = .ok key)
    (horder : require_awaiting_order db uid now = .ok order)
    (hpm : require_active_payment_method db pmid = .ok pm)
    (hfound : db.payments.find? (fun q => q.idempotency_key == key) = some p) :
    (p.order_id = order.id ∧ p.payment_method_id = pm.id ∧ p.amount = order.total_price →
      ∃ r, start_payment db uid pmid rawKey now = .ok (p, r, db)) ∧
    (p.order_id ≠ order.id ∨ p.payment_method_id ≠ pm.id ∨ p.amount ≠ order.total_price →
      start_payment db uid pmid rawKey now =
        .error (.conflict "Idempotency key reused for different payload")) := by
  constructor
  · rintro ⟨h1, h2, h3⟩
    refine ⟨if p.status == PaymentStatus.PENDING || p.status == PaymentStatus.REQUIRES_ACTION
            then some (redirect_url p.id key) else none, ?_⟩
    simp [start_payment, bind, Except.bind, hkey, horder, hpm, hfound, pure, Except.pure,
      h1, h2, h3]
  · intro hne
    have hcond : (p.order_id != order.id || p.payment_method_id != pm.id ||
        p.amount != order.total_price) = true := by
      rcases hne with h | h | h <;> simp [h]
    simp [start_payment, bind, Except.bind, hkey, horder, hpm, hfound, pure, Except.pure,
      hcond, throw, throwThe, MonadExceptOf.throw]

/-- The replay database: the awaiting order of `awaitingDB` already has a
payment under the idempotency key, with matching (order, method, amount). -/
def replayPayment : Payment :=
  { id := 1, order_id := 1, payment_method_id := 1, amount := 1000,
    provider := "test", status := .REQUIRES_ACTION,
    idempotency_key := "123e4567-e89b-42d3-a456-426614174000", paid_at := none }

def replayDB : DB := { awaitingDB with payments := [replayPayment], next_payment_id := 2 }

/-- Witness for C2: replaying the same key, method and amount returns the
stored payment and leaves the database unchanged. -/
theorem start_payment_idempotent_replay_witness :
    ∃ r, start_payment replayDB 1 1 "123e4567-e89b-42d3-a456-426614174000" 50 =
      .ok (replayPayment, r, replayDB) :=
  (start_payment_idempotent_replay replayDB 1 1
    "123e4567-e89b-42d3-a456-426614174000" "123e4567-e89b-42d3-a456-426614174000" 50
    { id := 1, user_id := 1, total_price := 1000, reserved_until := some 100,
      status := .AWAITING_PAYMENT, invoice_requested := false }
    { id := 1, name := "card", is_active := true } replayPayment
    (by rfl) (by rfl) (by rfl) (by rfl)).1 ⟨rfl, rfl, rfl⟩

/-! ## Inversion lemmas for successful reservations -/

lemma reserve_ticket_ok_main {db : DB} {uid eid tid : Nat} {sid : Option Nat} {now : Int}
    {r : Order × TicketInstance × DB}
    (h : reserve_ticket db uid eid tid sid now = .ok r) :
    ∃ event, reserve_ticket_main db uid eid tid sid event now = .ok r := by
  simp only [reserve_ticket, bind, Except.bind, pure, Except.pure] at h
  cases h1 : require_event_on_sale_status db eid now with
  | error e => simp [h1] at h
  | ok ev =>
    simp only [h1] at h
    refine ⟨ev, ?_⟩
    cases h2 : db.orders.find? (fun o2 => o2.user_id == uid &&
        o2.status == OrderStatus.AWAITING_PAYMENT) with
    | some aw =>
      rw [h2] at h
      cases h3 : optGE aw.reserved_until now with
      | true => simp [h3] at h
      | false => simpa [h3] using h
    | none =>
      rw [h2] at h
      simpa using h

lemma reserve_ticket_main_ga_elim {db : DB} {uid eid tid : Nat} {event : Event} {now : Int}
    {o : Order} {ti : TicketInstance} {db' : DB}
    (h : reserve_ticket_main db uid eid tid none event now = .ok (o, ti, db')) :
    ∃ ett es sec order db2,
      load_ett_for_event db tid eid = .ok ett ∧
      resolveSector db ett = .ok (es, sec) ∧ sec.is_ga = true ∧
      require_order (upsertPendingOrder db uid) uid .PENDING "No pending order found"
        = .ok order ∧
      ga_decrement (upsertPendingOrder db uid) ett.event_sector_id = .ok db2 ∧
      ti.order_id = order.id ∧ ti.seat_id = none ∧
      ti.id = db2.next_ticket_instance_id ∧
      ti.event_ticket_type_id = tid ∧
      ti.price_gross_snapshot = gross_price ett.price_net ett.vat_rate ∧
      (o, ti, db') = finishReservation db2 order ti now := by
  simp only [reserve_ticket_main, bind, Except.bind, pure, Except.pure] at h
  cases h1 : load_ett_for_event db tid eid with
  | error e => simp [h1] at h
  | ok ett =>
  simp only [h1] at h
  cases h2 : resolveSector db ett with
  | error e => simp [h2] at h
  | ok p =>
  obtain ⟨es, sec⟩ := p
  simp only [h2] at h
  cases hga : sec.is_ga with
  | false => simp [hga] at h
  | true =>
  simp only [hga, Option.isSome_none, Option.isNone_none, Bool.and_false, Bool.not_true,
    Bool.false_and, Bool.and_true, if_false, Bool.false_eq_true, if_neg] at h
  cases h3 : require_order (upsertPendingOrder db uid) uid .PENDING "No pending order found" with
  | error e => simp [h3] at h
  | ok order =>
  simp only [h3] at h
  cases h4 : ensure_user_ticket_limit_not_exceeded (upsertPendingOrder db uid) uid event with
  | error e => simp [h4] at h
  | ok u =>
  simp only [h4] at h
  cases h5 : resolveTicketTypeName db ett with
  | error e => simp [h5] at h
  | ok nm =>
  simp only [h5] at h
  cases h6 : ga_decrement (upsertPendingOrder db uid) ett.event_sector_id with
  | error e => simp [h6] at h
  | ok db2 =>
  simp only [h6] at h
  simp only [ite_true, ite_false, finishReservation, Except.ok.injEq, Prod.mk.injEq] at h
  obtain ⟨ho, hti, hdb'⟩ := h
  subst ho
  subst hti
  subst hdb'
  exact ⟨ett, es, sec, order, db2, rfl, h2, hga, rfl, h6, rfl, rfl, rfl, rfl, rfl, rfl⟩

lemma reserve_ticket_main_seated_elim {db : DB} {uid eid tid s : Nat} {event : Event}
    {now : Int} {o : Order} {ti : TicketInstance} {db' : DB}
    (h : reserve_ticket_main db uid eid tid (some s) event now = .ok (o, ti, db')) :
    ∃ ett es sec order,
      load_ett_for_event db tid eid = .ok ett ∧
      resolveSector db ett = .ok (es, sec) ∧ sec.is_ga = false ∧
      require_order (upsertPendingOrder db uid) uid .PENDING "No pending order found"
        = .ok order ∧
      seatConflict (upsertPendingOrder db uid) eid s = false ∧
      ti.order_id = order.id ∧ ti.seat_id = some s ∧ ti.event_id = eid ∧
      ti.id = (upsertPendingOrder db uid).next_ticket_instance_id ∧
      ti.event_ticket_type_id = tid ∧
      ti.price_gross_snapshot = gross_price ett.price_net ett.vat_rate ∧
      (o, ti, db') = finishReservation (upsertPendingOrder db uid) order ti now := by
  simp only [reserve_ticket_main, bind, Except.bind, pure, Except.pure] at h
  cases h1 : load_ett_for_event db tid eid with
  | error e => simp [h1] at h
  | ok ett =>
  simp only [h1] at h
  cases h2 : resolveSector db ett with
  | error e => simp [h2] at h
  | ok p =>
  obtain ⟨es, sec⟩ := p
  simp only [h2] at h
  cases hga : sec.is_ga with
  | true => simp [hga] at h
  | false =>
  simp only [hga, Option.isSome_some, Option.isNone_some, Bool.and_true, Bool.and_false,
    Bool.false_and, Bool.not_false, Bool.true_and, if_neg, Bool.false_eq_true] at h
  cases h3 : require_order (upsertPendingOrder db uid) uid .PENDING "No pending order found" with
  | error e => simp [h3] at h
  | ok order =>
  simp only [h3] at h
  cases h4 : ensure_user_ticket_limit_not_exceeded (upsertPendingOrder db uid) uid event with
  | error e => simp [h4] at h
  | ok u =>
  simp only [h4] at h
  cases h5 : resolveTicketTypeName db ett with
  | error e => simp [h5] at h
  | ok nm =>
  simp only [h5] at h
  cases h6 : require_seat_in_sector (upsertPendingOrder db uid) s es.sector_id with
  | error e => simp [h6] at h
  | ok seat =>
  simp only [h6] at h
  cases h7 : seatConflict (upsertPendingOrder db uid) eid s with
  | true => simp [h7] at h
  | false =>
  simp only [h7, Bool.false_eq_true, if_neg] at h
  simp only [ite_true, ite_false, finishReservation, Except.ok.injEq, Prod.mk.injEq] at h
  obtain ⟨ho, hti, hdb'⟩ := h
  subst ho
  subst hti
  subst hdb'
  exact ⟨ett, es, sec, order, rfl, h2, hga, rfl, rfl, rfl, rfl, rfl, rfl, rfl, rfl, rfl⟩

/-! ## C6 — reservation TTL extension -/

/-- The value `_extend_reservation` stores: `max(old, now + minutes)` when a
previous `reserved_until` exists, else `now + minutes`. -/
def extTarget (old : Option Int) (now : Int) : Int :=
  match old with
  | some ru => max ru (now + RESERVATION_MINUTES)
  | none => now + RESERVATION_MINUTES

lemma extend_reservation_reserved_until (o : Order) (now : Int) :
    (extend_reservation o now).reserved_until = some (extTarget o.reserved_until now) := by
  cases h : o.reserved_until <;> simp [extend_reservation, extTarget, h]

lemma bump_total_reserved_until (o : Order) (d : Int) :
    (bump_total o d).reserved_until = o.reserved_until := rfl

lemma reserve_ticket_extends {db : DB} {uid eid tid : Nat} {sid : Option Nat} {now : Int}
    {o : Order} {ti : TicketInstance} {db' : DB}
    (h : reserve_ticket db uid eid tid sid now = .ok (o, ti, db')) :
    ∃ order, require_order (upsertPendingOrder db uid) uid .PENDING "No pending order found"
        = .ok order ∧
      o.reserved_until = some (extTarget order.reserved_until now) := by
  obtain ⟨event, hm⟩ := reserve_ticket_ok_main h
  cases sid with
  | none =>
    obtain ⟨ett, es, sec, order, db2, _, _, _, h3, _, _, _, _, _, _, hfin⟩ :=
      reserve_ticket_main_ga_elim hm
    refine ⟨order, h3, ?_⟩
    have ho : o = extend_reservation (bump_total order ti.price_gross_snapshot) now := by
      have := congrArg (fun r => r.1) hfin
      simpa [finishReservation] using this
    rw [ho, extend_reservation_reserved_until, bump_total_reserved_until]
  | some s =>
    obtain ⟨ett, es, sec, order, _, _, _, h3, _, _, _, _, _, _, _, hfin⟩ :=
      reserve_ticket_main_seated_elim hm
    refine ⟨order, h3, ?_⟩
    have ho : o = extend_reservation (bump_total order ti.price_gross_snapshot) now := by
      have := congrArg (fun r => r.1) hfin
      simpa [finishReservation] using this
    rw [ho, extend_reservation_reserved_until, bump_total_reserved_until]

lemma process_order_extends {db : DB} {uid : Nat} {now : Int} {o : Order} {db' : DB}
    (h : process_order db uid now = .ok (o, db')) :
    ∃ order, require_order db uid .PENDING "No pending order found" = .ok order ∧
      o.reserved_until = some (extTarget order.reserved_until now) := by
  simp only [process_order, bind, Except.bind, pure, Except.pure] at h
  cases h1 : require_order db uid .PENDING "No pending order found" with
  | error e => simp [h1] at h
  | ok order =>
  simp only [h1] at h
  cases h2 : require_not_expired order now with
  | error e => simp [h2] at h
  | ok u =>
  simp only [h2] at h
  cases h3 : require_cart_has_items db order.id with
  | error e => simp [h3] at h
  | ok u =>
  simp only [h3] at h
  cases h4 : (order.invoice_requested && !db.invoices.any (fun inv => inv.order_id == order.id)) with
  | true => simp [h4] at h
  | false =>
  simp only [h4, Bool.false_eq_true, if_neg, ite_false] at h
  cases h5 : require_no_missing_holders db order.id with
  | error e => simp [h5] at h
  | ok u =>
  simp only [h5, Except.ok.injEq, Prod.mk.injEq] at h
  obtain ⟨ho, hdb'⟩ := h
  refine ⟨order, rfl, ?_⟩
  rw [← ho, extend_reservation_reserved_until]

lemma checkout_cases {db : DB} {uid : Nat} {now : Int} {o : Order} {db' : DB}
    (h : checkout db uid now = .ok (o, db')) :
    (db.orders.find? (fun o2 => o2.user_id == uid &&
        o2.status == OrderStatus.AWAITING_PAYMENT) = some o ∧ db' = db) ∨
    process_order db uid now = .ok (o, db') := by
  simp only [checkout, bind, Except.bind, pure, Except.pure] at h
  cases h1 : db.orders.find? (fun o2 => o2.user_id == uid &&
      o2.status == OrderStatus.AWAITING_PAYMENT) with
  | some aw =>
    rw [h1] at h
    cases h2 : require_not_expired aw now with
    | error e => simp [h2] at h
    | ok u =>
      simp only [h2, Except.ok.injEq, Prod.mk.injEq] at h
      obtain ⟨ho, hdb'⟩ := h
      exact Or.inl ⟨by rw [← ho], hdb'.symm⟩
  | none =>
    rw [h1] at h
    exact Or.inr h

/-- The C6 counterexample state: user 1's AWAITING_PAYMENT order expires at
minute 5 and `checkout` is replayed at minute 0. -/
def ttlOrder : Order :=
  { id := 1, user_id := 1, total_price := 1230, reserved_until := some 5,
    status := .AWAITING_PAYMENT, invoice_requested := false }

def ttlDB : DB := { emptyDB with orders := [ttlOrder], next_order_id := 2 }

/-- **C6 (counterexample).** A successful `checkout` call does *not* always
set `reserved_until` to `max(old, now + 15)`: when the order is already
AWAITING_PAYMENT and unexpired, `checkout` returns it unchanged, here with
`reserved_until = 5` although `max(5, 0 + 15) = 15`. -/
theorem checkout_does_not_always_extend :
    checkout ttlDB 1 0 = .ok (ttlOrder, ttlDB) ∧
    ttlOrder.reserved_until = some 5 ∧
    some (max 5 (0 + RESERVATION_MINUTES)) ≠ ttlOrder.reserved_until := by
  refine ⟨by rfl, by rfl, by decide⟩

/-- **C6 (amended).** Every successful `reserve_ticket` call, and every
`checkout` call that performs the PENDING → AWAITING_PAYMENT transition
(`process_order`), sets the order's `reserved_until` to
`max(old, now + 15 minutes)` (or to `now + 15` when no previous value
exists), hence never shortens it — the old value is a lower bound of the new
one.  A `checkout` call on an order that is already AWAITING_PAYMENT,
however, returns the order with `reserved_until` unchanged (which also never
shortens it, but does not extend it to `now + 15`). -/
theorem reservation_ttl_spec :
    (∀ (db : DB) (uid eid tid : Nat) (sid : Option Nat) (now : Int) o ti db',
      reserve_ticket db uid eid tid sid now = .ok (o, ti, db') →
      ∃ order, require_order (upsertPendingOrder db uid) uid .PENDING
          "No pending order found" = .ok order ∧
        o.reserved_until = some (extTarget order.reserved_until now) ∧
        ∀ ru, order.reserved_until = some ru → ru ≤ extTarget order.reserved_until now) ∧
    (∀ (db : DB) (uid : Nat) (now : Int) o db',
      process_order db uid now = .ok (o, db') →
      ∃ order, require_order db uid .PENDING "No pending order found" = .ok order ∧
        o.reserved_until = some (extTarget order.reserved_until now) ∧
        ∀ ru, order.reserved_until = some ru → ru ≤ extTarget order.reserved_until now) ∧
    (∀ (db : DB) (uid : Nat) (now : Int) o db',
      checkout db uid now = .ok (o, db') →
      (db.orders.find? (fun o2 => o2.user_id == uid &&
          o2.status == OrderStatus.AWAITING_PAYMENT) = some o ∧ db' = db) ∨
      process_order db uid now = .ok (o, db')) := by
  refine ⟨?_, ?_, ?_⟩
  · intro db uid eid tid sid now o ti db' h
    obtain ⟨order, h1, h2⟩ := reserve_ticket_extends h
    refine ⟨order, h1, h2, ?_⟩
    intro ru hru
    simp [extTarget, hru]
  · intro db uid now o db' h
    obtain ⟨order, h1, h2⟩ := process_order_extends h
    refine ⟨order, h1, h2, ?_⟩
    intro ru hru
    simp [extTarget, hru]
  · intro db uid now o db' h
    exact checkout_cases h

/-- Witness for the amended C6: the checkout-replay branch at the concrete
state of the counterexample. -/
theorem reservation_ttl_spec_witness :
    (ttlDB.orders.find? (fun o2 => o2.user_id == 1 &&
        o2.status == OrderStatus.AWAITING_PAYMENT) = some ttlOrder ∧ ttlDB = ttlDB) ∨
    process_order ttlDB 1 0 = .ok (ttlOrder, ttlDB) :=
  reservation_ttl_spec.2.2 ttlDB 1 0 ttlOrder ttlDB (by rfl)

/-! ## C10 — reserve_ticket with an expired AWAITING_PAYMENT order -/

lemma upsertPendingOrder_noop {db : DB} {uid : Nat}
    (h : db.orders.any (fun o => o.user_id == uid && openStatus o.status) = true) :
    upsertPendingOrder db uid = db := by
  simp [upsertPendingOrder, h]

/-- **C10.** For a user whose only open order is an AWAITING_PAYMENT order
whose `reserved_until` has passed, `reserve_ticket` raises
`NotFound "No pending order found"`: the awaiting-payment Conflict guard is
skipped because the order is expired, the upsert-if-absent inserts nothing
because the partial unique index counts AWAITING_PAYMENT as open, and no
PENDING order exists to load.  (The event, ticket type and GA/seat pairing
are assumed valid so that the earlier guards pass.) -/
theorem reserve_ticket_expired_awaiting_notfound (db : DB) (uid eid tid : Nat)
    (sid : Option Nat) (now ru : Int) (event : Event) (aw : Order)
    (ett : EventTicketType) (es : EventSector) (sec : Sector)
    (hev : require_event_on_sale_status db eid now = .ok event)
    (haw : db.orders.find? (fun o => o.user_id == uid &&
      o.status == OrderStatus.AWAITING_PAYMENT) = some aw)
    (hru : aw.reserved_until = some ru) (hexp : ru < now)
    (hett : load_ett_for_event db tid eid = .ok ett)
    (hsec : resolveSector db ett = .ok (es, sec))
    (hg1 : (sec.is_ga && sid.isSome) = false)
    (hg2 : (!sec.is_ga && sid.isNone) = false)
    (hnopending : ∀ o ∈ db.orders, o.user_id = uid → o.status ≠ OrderStatus.PENDING) :
    reserve_ticket db uid eid tid sid now = .error (.notFound "No pending order found") := by
  have hge : optGE aw.reserved_until now = false := by
    rw [hru]
    simp only [optGE, decide_eq_false_iff_not, not_le]
    omega
  have hopen : db.orders.any (fun o => o.user_id == uid && openStatus o.status) = true := by
    rw [List.any_eq_true]
    refine ⟨aw, List.mem_of_find?_eq_some haw, ?_⟩
    have := List.find?_some haw
    simp only [Bool.and_eq_true, beq_iff_eq] at this
    simp [this.1, this.2, openStatus]
  have hfindnone : db.orders.find? (fun o => o.user_id == uid &&
      o.status == OrderStatus.PENDING) = none := by
    rw [List.find?_eq_none]
    intro o hmem
    simp only [Bool.and_eq_true, beq_iff_eq, not_and]
    intro huid
    exact fun hst => hnopending o hmem huid hst
  simp only [reserve_ticket, bind, Except.bind, pure, Except.pure, hev, haw, hge,
    Bool.false_eq_true, if_neg, ite_false]
  simp only [reserve_ticket_main, bind, Except.bind, pure, Except.pure, hett, hsec,
    hg1, hg2, Bool.false_eq_true, if_neg, ite_false, upsertPendingOrder_noop hopen,
    require_order, hfindnone]

/-- Witness for C10: a concrete one-user database whose only open order is an
expired AWAITING_PAYMENT order. -/
theorem reserve_ticket_expired_awaiting_notfound_witness :
    reserve_ticket
      { emptyDB with
        events := [{ id := 1, status := .ON_SALE, sales_start := 0, sales_end := 1000,
                     max_tickets_per_user := none, holder_data_required := false }],
        sectors := [{ id := 1, is_ga := true }],
        event_sectors := [{ id := 1, event_id := 1, sector_id := 1, tickets_left := some 5 }],
        ticket_types := [{ id := 1, name := "GA" }],
        event_ticket_types := [{ id := 1, event_sector_id := 1, ticket_type_id := 1,
                                 price_net := 1000, vat_rate := 123 }],
        orders := [{ id := 1, user_id := 1, total_price := 1230, reserved_until := some 5,
                     status := .AWAITING_PAYMENT, invoice_requested := false }],
        next_order_id := 2 } 1 1 1 none 10
      = .error (.notFound "No pending order found") := by
  exact reserve_ticket_expired_awaiting_notfound _ 1 1 1 none 10 5
    { id := 1, status := .ON_SALE, sales_start := 0, sales_end := 1000,
      max_tickets_per_user := none, holder_data_required := false }
    { id := 1, user_id := 1, total_price := 1230, reserved_until := some 5,
      status := .AWAITING_PAYMENT, invoice_requested := false }
    { id := 1, event_sector_id := 1, ticket_type_id := 1, price_net := 1000, vat_rate := 123 }
    { id := 1, event_id := 1, sector_id := 1, tickets_left := some 5 }
    { id := 1, is_ga := true }
    (by rfl) (by rfl) (by rfl) (by decide) (by rfl) (by rfl) (by rfl) (by rfl)
    (by decide)

/-! ## C9 — the reaper's batch budget -/

/-- One expired PENDING order (id 1) and one expired AWAITING_PAYMENT order
(id 2) with no payment at all. -/
def reaperDB : DB :=
  { emptyDB with
    orders := [{ id := 1, user_id := 1, total_price := 0, reserved_until := some 5,
                 status := .PENDING, invoice_requested := false },
               { id := 2, user_id := 2, total_price := 0, reserved_until := some 5,
                 status := .AWAITING_PAYMENT, invoice_requested := false }],
    next_order_id := 3 }

/-- **C9 (counterexample).** With batch size N = 1, one expired PENDING order
and one expired AWAITING_PAYMENT order that has no active payment, the run
claims only the PENDING order: the AWAITING_PAYMENT category receives the
*remaining* budget `N - #pending = 0`, not its own budget of N, so the
eligible awaiting order is left unswept. -/
theorem reaper_budget_not_per_category :
    (reaperDB.orders.find? (fun o => o.id == 2)).map
      (fun o => (o.status, optLT o.reserved_until 100)) =
      some (OrderStatus.AWAITING_PAYMENT, true) ∧
    activePayment reaperDB 2 = false ∧
    sweptIds reaperDB 100 1 = [1] ∧
    ((cleanup_expired_reservations reaperDB 100 1).1.orders.find?
      (fun o => o.id == 2)).map (·.status) = some OrderStatus.AWAITING_PAYMENT := by
  refine ⟨by decide, by decide, by decide, by decide⟩

/-- **C9 (amended).** A single reaper run with batch size N claims up to N
expired PENDING orders and, in addition, up to `N - #claimed-pending` expired
AWAITING_PAYMENT orders that have no active payment, so the whole sweep
claims at most N orders in total (not up to N from each category). -/
theorem reaper_batch_budget (db : DB) (now : Int) (limit : Nat) :
    (cleanupPendingIds db now limit).length ≤ limit ∧
    (cleanupAwaitingIds db now (limit - (cleanupPendingIds db now limit).length)).length
      ≤ limit - (cleanupPendingIds db now limit).length ∧
    (sweptIds db now limit).length ≤ limit := by
  refine ⟨?_, ?_, ?_⟩
  · simp only [cleanupPendingIds, List.length_take]
    exact Nat.min_le_left _ _
  · simp only [cleanupAwaitingIds, List.length_take]
    exact Nat.min_le_left _ _
  · simp only [sweptIds, List.length_append, cleanupPendingIds, cleanupAwaitingIds,
      List.length_take]
    omega

/-! ## C4 — reaper sweep correctness -/

/-- Total GA release a batch of order ids owes to one event sector. -/
def gaReleaseFor (db : DB) (ids : List Nat) (esid : Nat) : Int :=
  (ids.map (fun oid => (gaCount db oid esid : Int))).sum

/-- The database after one loop iteration of the reaper, written out. -/
lemma cleanupOrder_fst (db : DB) (oid : Nat) (stats : CleanupStats) :
    (cleanupOrder db oid stats).1 =
      { db with
        event_sectors := db.event_sectors.map (fun es =>
          if (gaCount db oid es.id : Int) > 0
          then { es with tickets_left := es.tickets_left.map (· + (gaCount db oid es.id : Int)) }
          else es),
        ticket_instances := db.ticket_instances.filter (fun ti => ti.order_id != oid),
        orders := db.orders.map (fun o =>
          if o.id = oid then { o with status := OrderStatus.CANCELLED } else o) } := rfl

/-- `instanceGaSector` reads only the pricing/venue tables, which the reaper
never modifies, and the event-sector ids/links, which `releaseOrderGA`
preserves. -/
lemma instanceGaSector_map (db : DB) (f : EventSector → EventSector)
    (hid : ∀ es, (f es).id = es.id) (hsid : ∀ es, (f es).sector_id = es.sector_id)
    (ti : TicketInstance) :
    instanceGaSector { db with event_sectors := db.event_sectors.map f } ti =
      instanceGaSector db ti := by
  simp only [instanceGaSector]
  cases h1 : db.event_ticket_types.find? (fun t => t.id == ti.event_ticket_type_id) with
  | none => rfl
  | some ett =>
    dsimp only
    rw [List.find?_map]
    have hpred : ((fun es : EventSector => es.id == ett.event_sector_id) ∘ f)
        = (fun es : EventSector => es.id == ett.event_sector_id) := by
      funext e
      simp [Function.comp, hid e]
    rw [hpred]
    cases h2 : db.event_sectors.find? (fun es => es.id == ett.event_sector_id) with
    | none => rfl
    | some es =>
      dsimp only [Option.map]
      rw [hsid es]
      cases h3 : db.sectors.find? (fun s => s.id == es.sector_id) with
      | none => rfl
      | some sec => simp [hid es]

lemma instanceGaSector_congr {db1 db2 : DB} (ti : TicketInstance)
    (h1 : db1.event_ticket_types = db2.event_ticket_types)
    (h2 : db1.event_sectors = db2.event_sectors)
    (h3 : db1.sectors = db2.sectors) :
    instanceGaSector db1 ti = instanceGaSector db2 ti := by
  simp only [instanceGaSector, h1, h2, h3]

lemma instanceGaSector_cleanupOrder (db : DB) (oid : Nat) (stats : CleanupStats)
    (ti : TicketInstance) :
    instanceGaSector (cleanupOrder db oid stats).1 ti = instanceGaSector db ti :=
  calc instanceGaSector (cleanupOrder db oid stats).1 ti
      = instanceGaSector { db with event_sectors := db.event_sectors.map (fun es =>
          if (gaCount db oid es.id : Int) > 0
          then { es with tickets_left := es.tickets_left.map (· + (gaCount db oid es.id : Int)) }
          else es) } ti := instanceGaSector_congr ti rfl rfl rfl
    _ = instanceGaSector db ti := instanceGaSector_map db _
          (fun es => by split <;> rfl)
          (fun es => by split <;> rfl) ti

/-- Deleting one order's line items does not change another order's GA
group counts. -/
lemma gaCount_cleanupOrder (db : DB) (oid : Nat) (stats : CleanupStats)
    {oidB : Nat} (esid : Nat) (hne : oidB ≠ oid) :
    gaCount (cleanupOrder db oid stats).1 oidB esid = gaCount db oidB esid := by
  have hinst : ∀ ti, instanceGaSector (cleanupOrder db oid stats).1 ti = instanceGaSector db ti :=
    instanceGaSector_cleanupOrder db oid stats
  conv_lhs => rw [gaCount]
  rw [cleanupOrder_fst]
  simp only
  rw [List.filter_filter]
  conv_rhs => rw [gaCount]
  congr 1
  apply List.filter_congr
  intro ti _
  rw [← cleanupOrder_fst db oid stats, hinst ti]
  by_cases h : ti.order_id = oidB
  · simp [h, hne]
  · simp [h]

lemma cleanupOrder_orders (db : DB) (oid : Nat) (stats : CleanupStats) :
    (cleanupOrder db oid stats).1.orders = db.orders.map (fun o =>
      if o.id = oid then { o with status := OrderStatus.CANCELLED } else o) := rfl

lemma cleanupOrder_instances (db : DB) (oid : Nat) (stats : CleanupStats) :
    (cleanupOrder db oid stats).1.ticket_instances =
      db.ticket_instances.filter (fun ti => ti.order_id != oid) := rfl

lemma cleanupOrder_es (db : DB) (oid : Nat) (stats : CleanupStats) :
    (cleanupOrder db oid stats).1.event_sectors = db.event_sectors.map (fun es =>
      if (gaCount db oid es.id : Int) > 0
      then { es with tickets_left := es.tickets_left.map (· + (gaCount db oid es.id : Int)) }
      else es) := rfl

/-- The cumulative effect of the reaper's loop over a duplicate-free batch of
order ids: every claimed order is cancelled, all its line items are deleted,
and every event sector's counter receives the batch's total GA release for
that sector. -/
lemma cleanup_fold_spec (ids : List Nat) (db : DB) (stats : CleanupStats)
    (hnd : ids.Nodup) :
    (ids.foldl (fun acc oid => cleanupOrder acc.1 oid acc.2) (db, stats)).1.orders =
      db.orders.map (fun o =>
        if o.id ∈ ids then { o with status := OrderStatus.CANCELLED } else o) ∧
    (ids.foldl (fun acc oid => cleanupOrder acc.1 oid acc.2) (db, stats)).1.ticket_instances =
      db.ticket_instances.filter (fun ti => !decide (ti.order_id ∈ ids)) ∧
    (ids.foldl (fun acc oid => cleanupOrder acc.1 oid acc.2) (db, stats)).1.event_sectors =
      db.event_sectors.map (fun es =>
        { es with tickets_left := es.tickets_left.map (· + gaReleaseFor db ids es.id) }) := by
  induction ids generalizing db stats with
  | nil =>
    refine ⟨?_, ?_, ?_⟩
    · simp
    · simp
    · simp [gaReleaseFor]
  | cons oid tl ih =>
    obtain ⟨hmem, htl⟩ := List.nodup_cons.mp hnd
    simp only [List.foldl_cons]
    obtain ⟨iho, ihi, ihes⟩ :=
      ih (cleanupOrder db oid stats).1 (cleanupOrder db oid stats).2 htl
    have hrel : ∀ esid, gaReleaseFor (cleanupOrder db oid stats).1 tl esid =
        gaReleaseFor db tl esid := by
      intro esid
      unfold gaReleaseFor
      congr 1
      apply List.map_congr_left
      intro oidB hmemB
      have hne : oidB ≠ oid := fun he => hmem (he ▸ hmemB)
      rw [gaCount_cleanupOrder db oid stats esid hne]
    refine ⟨?_, ?_, ?_⟩
    · rw [iho, cleanupOrder_orders, List.map_map]
      apply List.map_congr_left
      intro o _
      by_cases h1 : o.id = oid
      · by_cases h2 : o.id ∈ tl <;> simp [Function.comp, h1, h2, List.mem_cons]
      · by_cases h2 : o.id ∈ tl <;> simp [Function.comp, h1, h2, List.mem_cons]
    · rw [ihi, cleanupOrder_instances, List.filter_filter]
      apply List.filter_congr
      intro ti _
      by_cases h1 : ti.order_id = oid
      · simp [h1, List.mem_cons]
      · by_cases h2 : ti.order_id ∈ tl <;> simp [h1, h2, List.mem_cons]
    · rw [ihes, cleanupOrder_es, List.map_map]
      apply List.map_congr_left
      intro es _
      dsimp only [Function.comp]
      by_cases h : (gaCount db oid es.id : Int) > 0
      · rw [if_pos h]
        dsimp only
        rw [hrel es.id]
        congr 1
        rw [Option.map_map]
        cases es.tickets_left with
        | none => rfl
        | some v =>
          simp [Option.map, Function.comp, gaReleaseFor]
          omega
      · rw [if_neg h]
        rw [hrel es.id]
        congr 1
        have hz : (gaCount db oid es.id : Int) = 0 := by omega
        cases es.tickets_left with
        | none => rfl
        | some v =>
          simp [Option.map, Function.comp, gaReleaseFor]
          omega

/-- With unique order ids, one run's batch is duplicate-free. -/
lemma sweptIds_nodup (db : DB) (now : Int) (limit : Nat)
    (hord : (db.orders.map (·.id)).Nodup) : (sweptIds db now limit).Nodup := by
  have hinj := List.inj_on_of_nodup_map hord
  have hpend : ((db.orders.filter (fun o => o.status == OrderStatus.PENDING &&
      optLT o.reserved_until now)).map (·.id)).Nodup :=
    hord.sublist ((List.filter_sublist db.orders).map (·.id))
  have hawait : ((db.orders.filter (fun o => o.status == OrderStatus.AWAITING_PAYMENT &&
      optLT o.reserved_until now && !activePayment db o.id)).map (·.id)).Nodup :=
    hord.sublist ((List.filter_sublist db.orders).map (·.id))
  rw [sweptIds, List.nodup_append]
  refine ⟨hpend.sublist (List.take_sublist _ _), hawait.sublist (List.take_sublist _ _), ?_⟩
  intro a ha hb
  have ha' := List.take_subset _ _ ha
  have hb' := List.take_subset _ _ hb
  obtain ⟨o1, ho1, hid1⟩ := List.mem_map.mp ha'
  obtain ⟨o2, ho2, hid2⟩ := List.mem_map.mp hb'
  obtain ⟨ho1mem, hp1⟩ := List.mem_filter.mp ho1
  obtain ⟨ho2mem, hp2⟩ := List.mem_filter.mp ho2
  have he : o1 = o2 := hinj ho1mem ho2mem (by rw [hid1, hid2])
  simp only [Bool.and_eq_true, beq_iff_eq] at hp1 hp2
  rw [he, hp2.1.1] at hp1
  exact absurd hp1.1 (by decide)

/-- **C4 part 3 core.** An AWAITING_PAYMENT order with an active (PENDING or
REQUIRES_ACTION) payment is never claimed by either of the reaper's two
batch queries. -/
lemma active_awaiting_not_swept (db : DB) (now : Int) (limit : Nat)
    (hord : (db.orders.map (·.id)).Nodup) (o : Order) (hmem : o ∈ db.orders)
    (hst : o.status = OrderStatus.AWAITING_PAYMENT)
    (hap : activePayment db o.id = true) :
    o.id ∉ sweptIds db now limit := by
  intro hin
  have hinj := List.inj_on_of_nodup_map hord
  rw [sweptIds] at hin
  rcases List.mem_append.mp hin with h | h
  · obtain ⟨o1, ho1, hid⟩ := List.mem_map.mp (List.take_subset _ _ h)
    obtain ⟨ho1mem, hp⟩ := List.mem_filter.mp ho1
    have he : o1 = o := hinj ho1mem hmem hid
    simp only [Bool.and_eq_true, beq_iff_eq] at hp
    rw [he, hst] at hp
    exact absurd hp.1 (by decide)
  · obtain ⟨o1, ho1, hid⟩ := List.mem_map.mp (List.take_subset _ _ h)
    obtain ⟨ho1mem, hp⟩ := List.mem_filter.mp ho1
    have he : o1 = o := hinj ho1mem hmem hid
    simp only [Bool.and_eq_true, Bool.not_eq_true'] at hp
    rw [he] at hp
    rw [hp.2] at hap
    exact Bool.noConfusion hap

/-- **C4.** Every order the reaper claims ends CANCELLED with zero remaining
line items; the event-sector table after the run is exactly the old table
with each sector's `tickets_left` incremented by the batch's GA line-item
counts for that sector (per claimed order, the count of that order's GA
items in that sector); and an AWAITING_PAYMENT order with a PENDING or
REQUIRES_ACTION payment is never selected.  (Order ids are unique — the
primary-key invariant.) -/
theorem reaper_sweep_claim (db : DB) (now : Int) (limit : Nat)
    (hord : (db.orders.map (·.id)).Nodup) :
    (∀ oid ∈ sweptIds db now limit,
      (∀ o ∈ (cleanup_expired_reservations db now limit).1.orders,
        o.id = oid → o.status = OrderStatus.CANCELLED) ∧
      (∀ ti ∈ (cleanup_expired_reservations db now limit).1.ticket_instances,
        ti.order_id ≠ oid)) ∧
    ((cleanup_expired_reservations db now limit).1.event_sectors =
      db.event_sectors.map (fun es =>
        { es with
          tickets_left := es.tickets_left.map (· + gaReleaseFor db (sweptIds db now limit) es.id) })) ∧
    (∀ o ∈ db.orders, o.status = OrderStatus.AWAITING_PAYMENT →
      activePayment db o.id = true → o.id ∉ sweptIds db now limit) := by
  obtain ⟨ho, hi, hes⟩ := cleanup_fold_spec (sweptIds db now limit) db
    { orders_cancelled := 0, tickets_released := 0, ga_released := 0 }
    (sweptIds_nodup db now limit hord)
  refine ⟨?_, ?_, ?_⟩
  · intro oid hoid
    constructor
    · intro o hmem hid
      rw [cleanup_expired_reservations, ho] at hmem
      obtain ⟨o0, _, heq⟩ := List.mem_map.mp hmem
      by_cases h : o0.id ∈ sweptIds db now limit
      · rw [if_pos h] at heq
        rw [← heq]
      · rw [if_neg h] at heq
        rw [heq, hid] at h
        exact absurd hoid h
    · intro ti hmem hid
      rw [cleanup_expired_reservations, hi] at hmem
      have := (List.mem_filter.mp hmem).2
      simp only [Bool.not_eq_true', decide_eq_false_iff_not] at this
      exact this (hid ▸ hoid)
  · rw [cleanup_expired_reservations, hes]
  · exact fun o hmem hst hap => active_awaiting_not_swept db now limit hord o hmem hst hap

/-- A concrete reaper scenario: one expired PENDING order holding one GA
instance from a sector with 3 tickets left. -/
def c4DB : DB :=
  { emptyDB with
    sectors := [{ id := 1, is_ga := true }],
    event_sectors := [{ id := 1, event_id := 1, sector_id := 1, tickets_left := some 3 }],
    event_ticket_types := [{ id := 1, event_sector_id := 1, ticket_type_id := 1,
                             price_net := 1000, vat_rate := 123 }],
    orders := [{ id := 1, user_id := 1, total_price := 1230, reserved_until := some 5,
                 status := .PENDING, invoice_requested := false }],
    ticket_instances := [{ id := 1, event_ticket_type_id := 1, seat_id := none,
                           event_id := 1, order_id := 1, price_net_snapshot := 1000,
                           vat_rate_snapshot := 123, price_gross_snapshot := 1230,
                           ticket_type_name_snapshot := "GA" }],
    next_order_id := 2, next_ticket_instance_id := 2 }

/-- Witness for C4 at the concrete scenario. -/
theorem reaper_sweep_claim_witness :
    (∀ oid ∈ sweptIds c4DB 100 10,
      (∀ o ∈ (cleanup_expired_reservations c4DB 100 10).1.orders,
        o.id = oid → o.status = OrderStatus.CANCELLED) ∧
      (∀ ti ∈ (cleanup_expired_reservations c4DB 100 10).1.ticket_instances,
        ti.order_id ≠ oid)) ∧
    ((cleanup_expired_reservations c4DB 100 10).1.event_sectors =
      c4DB.event_sectors.map (fun es =>
        { es with
          tickets_left := es.tickets_left.map (· + gaReleaseFor c4DB (sweptIds c4DB 100 10) es.id) })) ∧
    (∀ o ∈ c4DB.orders, o.status = OrderStatus.AWAITING_PAYMENT →
      activePayment c4DB o.id = true → o.id ∉ sweptIds c4DB 100 10) :=
  reaper_sweep_claim c4DB 100 10 (by decide)

/-! ## C7 — the order-total invariant -/

/-- The sum of the gross price snapshots of an order's line items. -/
def orderItemsSum (db : DB) (oid : Nat) : Int :=
  ((db.ticket_instances.filter (fun ti => ti.order_id == oid)).map
    (·.price_gross_snapshot)).sum

/-- The claim's invariant: every order's `total_price` is the sum of its
items' gross snapshots, and is never negative. -/
def TotalInv (db : DB) : Prop :=
  ∀ o ∈ db.orders, o.total_price = orderItemsSum db o.id ∧ 0 ≤ o.total_price

lemma orderItemsSum_congr {db1 db2 : DB} (h : db1.ticket_instances = db2.ticket_instances)
    (oid : Nat) : orderItemsSum db1 oid = orderItemsSum db2 oid := by
  simp only [orderItemsSum, h]

/-- `TotalInv` transfers along any database change that maps the orders with
an id- and total-preserving function (on the rows present) and keeps the
line items. -/
lemma TotalInv_of_map_orders {db db2 : DB} (f : Order → Order)
    (horders : db2.orders = db.orders.map f)
    (hinst : db2.ticket_instances = db.ticket_instances)
    (hf : ∀ o ∈ db.orders, (f o).id = o.id ∧ (f o).total_price = o.total_price)
    (h : TotalInv db) : TotalInv db2 := by
  intro o' hmem
  rw [horders] at hmem
  obtain ⟨o0, ho0, heq⟩ := List.mem_map.mp hmem
  obtain ⟨hsum, hpos⟩ := h o0 ho0
  obtain ⟨hid, htot⟩ := hf o0 ho0
  subst heq
  rw [hid, htot, orderItemsSum_congr hinst]
  exact ⟨hsum, hpos⟩

lemma next_invoice_number_orders (db : DB) (t : Int) :
    (next_invoice_number db t).2.orders = db.orders := by
  rw [next_invoice_number]
  split <;> rfl

lemma next_invoice_number_instances (db : DB) (t : Int) :
    (next_invoice_number db t).2.ticket_instances = db.ticket_instances := by
  rw [next_invoice_number]
  split <;> rfl

lemma issue_invoice_orders (db : DB) (oid : Nat) (t : Int) :
    (issue_invoice_for_order db oid t).orders = db.orders := by
  rw [issue_invoice_for_order]
  cases h1 : db.invoices.find? (fun inv => inv.order_id == oid) with
  | none => rfl
  | some inv =>
    dsimp only
    split <;> split <;>
      first
        | exact next_invoice_number_orders db t
        | rfl

lemma issue_invoice_instances (db : DB) (oid : Nat) (t : Int) :
    (issue_invoice_for_order db oid t).ticket_instances = db.ticket_instances := by
  rw [issue_invoice_for_order]
  cases h1 : db.invoices.find? (fun inv => inv.order_id == oid) with
  | none => rfl
  | some inv =>
    dsimp only
    split <;> split <;>
      first
        | exact next_invoice_number_instances db t
        | rfl

lemma issue_tickets_orders (db : DB) (oid : Nat) :
    (issue_tickets db oid).1.orders = db.orders := rfl

lemma issue_tickets_instances (db : DB) (oid : Nat) :
    (issue_tickets db oid).1.ticket_instances = db.ticket_instances := rfl

/-- `process_order` keeps the invariant: it only flips the status and
extends the TTL of the loaded order. -/
lemma TotalInv_process_order {db : DB} {uid : Nat} {now : Int} {o : Order} {db' : DB}
    (hord : (db.orders.map (·.id)).Nodup)
    (h : process_order db uid now = .ok (o, db')) (hinv : TotalInv db) : TotalInv db' := by
  obtain ⟨order, h1, -⟩ := process_order_extends h
  have hdb' : db' = updateOrderById db order.id (fun _ =>
      extend_reservation { order with status := .AWAITING_PAYMENT } now) := by
    simp only [process_order, bind, Except.bind, pure, Except.pure, h1] at h
    cases h2 : require_not_expired order now with
    | error e => simp [h2] at h
    | ok u =>
    simp only [h2] at h
    cases h3 : require_cart_has_items db order.id with
    | error e => simp [h3] at h
    | ok u =>
    simp only [h3] at h
    cases h4 : (order.invoice_requested &&
        !db.invoices.any (fun inv => inv.order_id == order.id)) with
    | true => simp [h4] at h
    | false =>
    simp only [h4, Bool.false_eq_true, if_neg, ite_false] at h
    cases h5 : require_no_missing_holders db order.id with
    | error e => simp [h5] at h
    | ok u =>
    simp only [h5, Except.ok.injEq, Prod.mk.injEq] at h
    exact h.2.symm
  have horder_mem : order ∈ db.orders := by
    simp only [require_order] at h1
    cases hf : db.orders.find? (fun o2 => o2.user_id == uid &&
        o2.status == OrderStatus.PENDING) with
    | none => rw [hf] at h1; exact absurd h1 (by simp)
    | some o2 =>
      rw [hf] at h1
      cases h1
      exact List.mem_of_find?_eq_some hf
  have hinj := List.inj_on_of_nodup_map hord
  refine TotalInv_of_map_orders _ (by rw [hdb']; rfl) (by rw [hdb']; rfl) ?_ hinv
  intro o0 ho0
  by_cases he : o0.id = order.id
  · have : o0 = order := hinj ho0 horder_mem he
    subst this
    simp [extend_reservation]
  · simp [he]

/-- `reopen_cart` keeps the invariant. -/
lemma TotalInv_reopen_cart {db : DB} {uid : Nat} {now : Int} {o : Order} {db' : DB}
    (hord : (db.orders.map (·.id)).Nodup)
    (h : reopen_cart db uid now = .ok (o, db')) (hinv : TotalInv db) : TotalInv db' := by
  simp only [reopen_cart, bind, Except.bind, pure, Except.pure] at h
  cases h1 : require_order db uid .AWAITING_PAYMENT "No order awaiting payment" with
  | error e => simp [h1] at h
  | ok order =>
  simp only [h1] at h
  cases h2 : require_not_expired order now with
  | error e => simp [h2] at h
  | ok u =>
  simp only [h2] at h
  cases h3 : activePayment db order.id with
  | true => simp [h3] at h
  | false =>
  simp only [h3, Bool.false_eq_true, if_neg, ite_false, Except.ok.injEq, Prod.mk.injEq] at h
  have horder_mem : order ∈ db.orders := by
    simp only [require_order] at h1
    cases hf : db.orders.find? (fun o2 => o2.user_id == uid &&
        o2.status == OrderStatus.AWAITING_PAYMENT) with
    | none => rw [hf] at h1; exact absurd h1 (by simp)
    | some o2 =>
      rw [hf] at h1
      cases h1
      exact List.mem_of_find?_eq_some hf
  have hinj := List.inj_on_of_nodup_map hord
  refine TotalInv_of_map_orders _ (by rw [← h.2]; rfl) (by rw [← h.2]; rfl) ?_ hinv
  intro o0 ho0
  by_cases he : o0.id = order.id
  · have : o0 = order := hinj ho0 horder_mem he
    subst this
    simp [extend_reservation]
  · simp [he]

lemma TotalInv_congr {db db2 : DB} (ho : db2.orders = db.orders)
    (hi : db2.ticket_instances = db.ticket_instances) (h : TotalInv db) : TotalInv db2 := by
  intro o hmem
  rw [ho] at hmem
  obtain ⟨hs, hp⟩ := h o hmem
  rw [orderItemsSum_congr hi]
  exact ⟨hs, hp⟩

/-- `finalize_payment` keeps the invariant: it never touches totals or line
items (ticket issuance creates `Ticket` rows, not `TicketInstance` rows). -/
lemma TotalInv_finalize_payment {db : DB} {uid pid : Nat} {success : Bool} {now : Int}
    {p : Payment} {db' : DB}
    (hord : (db.orders.map (·.id)).Nodup)
    (h : finalize_payment db uid pid success now = .ok (p, db')) (hinv : TotalInv db) :
    TotalInv db' := by
  simp only [finalize_payment, bind, Except.bind, pure, Except.pure] at h
  cases h1 : db.payments.find? (fun q => q.id == pid &&
      db.orders.any (fun o2 => o2.id == q.order_id && o2.user_id == uid)) with
  | none => simp [h1] at h
  | some payment =>
  simp only [h1] at h
  cases h2 : db.orders.find? (fun o2 => o2.id == payment.order_id) with
  | none => simp [h2] at h
  | some order =>
  simp only [h2] at h
  cases h3 : (order.status != OrderStatus.AWAITING_PAYMENT) with
  | true => simp [h3] at h
  | false =>
  simp only [h3, Bool.false_eq_true, if_neg, ite_false] at h
  cases h4 : (payment.status == PaymentStatus.COMPLETED ||
      payment.status == PaymentStatus.FAILED) with
  | true =>
    simp only [h4, ite_true, Except.ok.injEq, Prod.mk.injEq] at h
    exact TotalInv_congr (by rw [← h.2]) (by rw [← h.2]) hinv
  | false =>
  simp only [h4, Bool.false_eq_true, if_neg, ite_false] at h
  have horder_mem : order ∈ db.orders := List.mem_of_find?_eq_some h2
  have hinj := List.inj_on_of_nodup_map hord
  cases success with
  | true =>
    simp only [ite_true, Except.ok.injEq, Prod.mk.injEq] at h
    obtain ⟨-, hdb'⟩ := h
    refine TotalInv_of_map_orders
      (fun o => if o.id = order.id then { order with status := OrderStatus.COMPLETED } else o)
      ?_ ?_ ?_ hinv
    · rw [← hdb', issue_tickets_orders]
      split
      · rw [issue_invoice_orders]
        rfl
      · rfl
    · rw [← hdb', issue_tickets_instances]
      split
      · rw [issue_invoice_instances]
        rfl
      · rfl
    · intro o0 ho0
      by_cases he : o0.id = order.id
      · have : o0 = order := hinj ho0 horder_mem he
        subst this
        simp
      · simp [he]
  | false =>
    simp only [Bool.false_eq_true, if_neg, ite_false, Except.ok.injEq, Prod.mk.injEq] at h
    exact TotalInv_congr (by rw [← h.2]; rfl) (by rw [← h.2]; rfl) hinv

/-- `checkout` keeps the invariant (either a no-op or `process_order`). -/
lemma TotalInv_checkout {db : DB} {uid : Nat} {now : Int} {o : Order} {db' : DB}
    (hord : (db.orders.map (·.id)).Nodup)
    (h : checkout db uid now = .ok (o, db')) (hinv : TotalInv db) : TotalInv db' := by
  rcases checkout_cases h with ⟨-, rfl⟩ | hp
  · exact hinv
  · exact TotalInv_process_order hord hp hinv

lemma orderItemsSum_append (db : DB) (l : List TicketInstance) (ti : TicketInstance)
    (oid : Nat) (hl : db.ticket_instances = l) :
    orderItemsSum { db with ticket_instances := l ++ [ti] } oid =
      orderItemsSum db oid + (if ti.order_id = oid then ti.price_gross_snapshot else 0) := by
  simp only [orderItemsSum, hl, List.filter_append, List.map_append, List.sum_append]
  by_cases h : ti.order_id = oid <;> simp [h]

lemma ga_decrement_ok_projs {db : DB} {esid : Nat} {db2 : DB}
    (h : ga_decrement db esid = .ok db2) :
    db2.orders = db.orders ∧ db2.ticket_instances = db.ticket_instances ∧
      db2.next_ticket_instance_id = db.next_ticket_instance_id := by
  rw [ga_decrement] at h
  split at h
  · cases h
    exact ⟨rfl, rfl, rfl⟩
  · cases h

/-- The shared tail of a successful reservation keeps the invariant: the new
item's gross price is added both to the order total (clamped at zero, which
never fires because both sides are non-negative) and to the item sum. -/
lemma TotalInv_finishReservation (dbX : DB) (order : Order) (ti : TicketInstance)
    (now : Int) (hnodup : (dbX.orders.map (·.id)).Nodup) (hmem : order ∈ dbX.orders)
    (hinv : TotalInv dbX) (hti_order : ti.order_id = order.id)
    (hg : 0 ≤ ti.price_gross_snapshot) :
    TotalInv (finishReservation dbX order ti now).2.2 := by
  have hinj := List.inj_on_of_nodup_map hnodup
  intro o' hmem'
  have hmem2 : o' ∈ dbX.orders.map (fun o => if o.id = order.id then
      extend_reservation (bump_total order ti.price_gross_snapshot) now else o) := hmem'
  obtain ⟨o0, ho0, heq⟩ := List.mem_map.mp hmem2
  obtain ⟨hsum0, hpos0⟩ := hinv o0 ho0
  have hsum_app : ∀ oid, orderItemsSum (finishReservation dbX order ti now).2.2 oid =
      orderItemsSum dbX oid + (if ti.order_id = oid then ti.price_gross_snapshot else 0) := by
    intro oid
    have : orderItemsSum (finishReservation dbX order ti now).2.2 oid =
        orderItemsSum { dbX with ticket_instances := dbX.ticket_instances ++ [ti] } oid :=
      orderItemsSum_congr rfl oid
    rw [this, orderItemsSum_append dbX dbX.ticket_instances ti oid rfl]
  by_cases he : o0.id = order.id
  · have ho0eq : o0 = order := hinj ho0 hmem he
    subst ho0eq
    rw [if_pos he] at heq
    obtain ⟨hsumO, hposO⟩ := hinv o0 ho0
    subst heq
    have hid : (extend_reservation (bump_total o0 ti.price_gross_snapshot) now).id = o0.id := rfl
    have htot : (extend_reservation (bump_total o0 ti.price_gross_snapshot) now).total_price
        = if o0.total_price + ti.price_gross_snapshot > 0
          then o0.total_price + ti.price_gross_snapshot else 0 := rfl
    rw [hid, htot, hsum_app o0.id, ← hsumO]
    refine ⟨?_, ?_⟩
    · rw [if_pos hti_order]
      split <;> omega
    · split <;> omega
  · rw [if_neg he] at heq
    subst heq
    have hne : ti.order_id ≠ o0.id := by
      rw [hti_order]
      exact fun hc => he hc.symm
    rw [hsum_app o0.id, if_neg hne]
    exact ⟨by rw [hsum0]; omega, hpos0⟩

/-- `upsert-if-absent` keeps the invariant: the fresh order starts with
total 0 and owns no line items (no instance can reference the not-yet-issued
order id). -/
lemma TotalInv_upsert (db : DB) (uid : Nat)
    (hfk : ∀ t ∈ db.ticket_instances, t.order_id < db.next_order_id)
    (hinv : TotalInv db) : TotalInv (upsertPendingOrder db uid) := by
  rw [upsertPendingOrder]
  split
  · exact hinv
  · intro o hmem
    rcases List.mem_append.mp hmem with hold | hnew
    · obtain ⟨hs, hp⟩ := hinv o hold
      refine ⟨?_, hp⟩
      rw [hs]
      exact orderItemsSum_congr rfl o.id
    · simp only [List.mem_singleton] at hnew
      subst hnew
      constructor
      · show (0 : Int) = orderItemsSum _ db.next_order_id
        have : db.ticket_instances.filter (fun t => t.order_id == db.next_order_id) = [] := by
          rw [List.filter_eq_nil_iff]
          intro t ht
          have := hfk t ht
          simp only [beq_iff_eq]
          omega
        simp [orderItemsSum, this]
      · exact le_refl 0

lemma upsert_orders_nodup (db : DB) (uid : Nat)
    (hord : (db.orders.map (·.id)).Nodup)
    (hfresh : ∀ o ∈ db.orders, o.id < db.next_order_id) :
    ((upsertPendingOrder db uid).orders.map (·.id)).Nodup := by
  rw [upsertPendingOrder]
  split
  · exact hord
  · rw [List.map_append, List.nodup_append]
    refine ⟨hord, List.nodup_singleton _, ?_⟩
    intro a ha hb
    simp only [List.map_cons, List.map_nil, List.mem_singleton] at hb
    obtain ⟨o1, ho1, hid⟩ := List.mem_map.mp ha
    have := hfresh o1 ho1
    omega

/-- `reserve_ticket` keeps the invariant. -/
lemma TotalInv_reserve_ticket {db : DB} {uid eid tid : Nat} {sid : Option Nat} {now : Int}
    {o : Order} {ti : TicketInstance} {db' : DB}
    (hord : (db.orders.map (·.id)).Nodup)
    (hfresh : ∀ o2 ∈ db.orders, o2.id < db.next_order_id)
    (hfk : ∀ t ∈ db.ticket_instances, t.order_id < db.next_order_id)
    (hett : ∀ e ∈ db.event_ticket_types, 0 ≤ e.price_net ∧ 0 ≤ e.vat_rate)
    (h : reserve_ticket db uid eid tid sid now = .ok (o, ti, db'))
    (hinv : TotalInv db) : TotalInv db' := by
  obtain ⟨event, hm⟩ := reserve_ticket_ok_main h
  have hinv1 : TotalInv (upsertPendingOrder db uid) := TotalInv_upsert db uid hfk hinv
  have hnd1 : ((upsertPendingOrder db uid).orders.map (·.id)).Nodup :=
    upsert_orders_nodup db uid hord hfresh
  cases sid with
  | none =>
    obtain ⟨ettR, es, sec, order, db2, hett1, -, -, h3, h6, hto, -, -, -, hgross_eq, hfin⟩ :=
      reserve_ticket_main_ga_elim hm
    obtain ⟨hpo, hpi, -⟩ := ga_decrement_ok_projs h6
    have horder_mem : order ∈ db2.orders := by
      rw [hpo]
      simp only [require_order] at h3
      cases hf : (upsertPendingOrder db uid).orders.find? (fun o2 => o2.user_id == uid &&
          o2.status == OrderStatus.PENDING) with
      | none => rw [hf] at h3; exact absurd h3 (by simp)
      | some o2 =>
        rw [hf] at h3
        cases h3
        exact List.mem_of_find?_eq_some hf
    have hinv2 : TotalInv db2 := TotalInv_congr hpo hpi hinv1
    have hnd2 : (db2.orders.map (·.id)).Nodup := by rw [hpo]; exact hnd1
    have hg : 0 ≤ ti.price_gross_snapshot := by
      have hmemE : ettR ∈ db.event_ticket_types := by
        simp only [load_ett_for_event] at hett1
        cases hf : db.event_ticket_types.find? (fun t => t.id == tid &&
            db.event_sectors.any (fun es2 => es2.id == t.event_sector_id &&
              es2.event_id == eid)) with
        | none => rw [hf] at hett1; exact absurd hett1 (by simp)
        | some t2 =>
          rw [hf] at hett1
          cases hett1
          exact List.mem_of_find?_eq_some hf
      obtain ⟨hn, hv⟩ := hett ettR hmemE
      rw [hgross_eq, gross_price]
      exact Int.ediv_nonneg (by positivity) (by omega)
    have hdb' : db' = (finishReservation db2 order ti now).2.2 :=
      congrArg (fun r => r.2.2) hfin
    rw [hdb']
    have hto' : ti.order_id = order.id := hto
    exact TotalInv_finishReservation db2 order ti now hnd2 horder_mem hinv2 hto' hg
  | some s =>
    obtain ⟨ettR, es, sec, order, hett1, -, -, h3, -, hto, -, -, -, -, hgross_eq, hfin⟩ :=
      reserve_ticket_main_seated_elim hm
    have horder_mem : order ∈ (upsertPendingOrder db uid).orders := by
      simp only [require_order] at h3
      cases hf : (upsertPendingOrder db uid).orders.find? (fun o2 => o2.user_id == uid &&
          o2.status == OrderStatus.PENDING) with
      | none => rw [hf] at h3; exact absurd h3 (by simp)
      | some o2 =>
        rw [hf] at h3
        cases h3
        exact List.mem_of_find?_eq_some hf
    have hg : 0 ≤ ti.price_gross_snapshot := by
      have hmemE : ettR ∈ db.event_ticket_types := by
        simp only [load_ett_for_event] at hett1
        cases hf : db.event_ticket_types.find? (fun t => t.id == tid &&
            db.event_sectors.any (fun es2 => es2.id == t.event_sector_id &&
              es2.event_id == eid)) with
        | none => rw [hf] at hett1; exact absurd hett1 (by simp)
        | some t2 =>
          rw [hf] at hett1
          cases hett1
          exact List.mem_of_find?_eq_some hf
      obtain ⟨hn, hv⟩ := hett ettR hmemE
      rw [hgross_eq, gross_price]
      exact Int.ediv_nonneg (by positivity) (by omega)
    have hdb' : db' = (finishReservation (upsertPendingOrder db uid) order ti now).2.2 :=
      congrArg (fun r => r.2.2) hfin
    rw [hdb']
    exact TotalInv_finishReservation (upsertPendingOrder db uid) order ti now hnd1
      horder_mem hinv1 hto hg

lemma gross_sum_split (l : List TicketInstance) (p : TicketInstance → Bool) :
    ((l.filter p).map (·.price_gross_snapshot)).sum +
      ((l.filter (fun x => !p x)).map (·.price_gross_snapshot)).sum =
      (l.map (·.price_gross_snapshot)).sum := by
  induction l with
  | nil => simp
  | cons a t ih =>
    cases hp : p a <;> simp [hp] <;> omega

lemma filter_id_eq_singleton {l : List TicketInstance}
    (hnd : (l.map (·.id)).Nodup) {ti0 : TicketInstance} (hmem : ti0 ∈ l)
    {k : Nat} (hk : ti0.id = k) :
    l.filter (fun t => t.id == k) = [ti0] := by
  induction l with
  | nil => cases hmem
  | cons a t ih =>
    rw [List.map_cons, List.nodup_cons] at hnd
    rcases List.mem_cons.mp hmem with rfl | hmem'
    · rw [List.filter_cons_of_pos (by simp [hk])]
      have : t.filter (fun x => x.id == k) = [] := by
        rw [List.filter_eq_nil_iff]
        intro x hx
        simp only [beq_iff_eq]
        intro hxk
        exact hnd.1 (List.mem_map.mpr ⟨x, hx, by rw [hxk, ← hk]⟩)
      rw [this]
    · rw [List.filter_cons_of_neg ?_, ih hnd.2 hmem']
      simp only [beq_iff_eq]
      intro hak
      exact hnd.1 (List.mem_map.mpr ⟨ti0, hmem', by rw [hk, ← hak]⟩)

/-- `remove_ticket_instance` keeps the invariant: the removed item's gross
price leaves both the total (the zero clamp never fires because the
remaining items' sum is non-negative) and the item sum. -/
lemma TotalInv_remove_ticket_instance {db : DB} {uid tiid : Nat} {db' : DB}
    (hord : (db.orders.map (·.id)).Nodup)
    (hti_nd : (db.ticket_instances.map (·.id)).Nodup)
    (hgross : ∀ t ∈ db.ticket_instances, 0 ≤ t.price_gross_snapshot)
    (h : remove_ticket_instance db uid tiid = .ok db')
    (hinv : TotalInv db) : TotalInv db' := by
  simp only [remove_ticket_instance, bind, Except.bind, pure, Except.pure] at h
  cases h1 : db.ticket_instances.find? (fun t => t.id == tiid) with
  | none => simp [h1] at h
  | some ti0 =>
  simp only [h1] at h
  cases h2 : require_order db uid .PENDING "Item not found in order" with
  | error e => simp [h2] at h
  | ok order =>
  simp only [h2] at h
  cases h3 : (order.id != ti0.order_id) with
  | true => simp [h3] at h
  | false =>
  simp only [h3, Bool.false_eq_true, if_neg, ite_false] at h
  cases h4 : db.event_ticket_types.find? (fun t => t.id == ti0.event_ticket_type_id) with
  | none => simp [h4] at h
  | some ett =>
  simp only [h4] at h
  cases h5 : resolveSector db ett with
  | error e => simp [h5] at h
  | ok p =>
  obtain ⟨es, sec⟩ := p
  simp only [h5, Except.ok.injEq] at h
  -- facts about the matched rows
  have hti0_mem : ti0 ∈ db.ticket_instances := List.mem_of_find?_eq_some h1
  have hti0_id : ti0.id = tiid := by simpa using List.find?_some h1
  have horder_mem : order ∈ db.orders := by
    simp only [require_order] at h2
    cases hf : db.orders.find? (fun o2 => o2.user_id == uid &&
        o2.status == OrderStatus.PENDING) with
    | none => rw [hf] at h2; exact absurd h2 (by simp)
    | some o2 =>
      rw [hf] at h2
      cases h2
      exact List.mem_of_find?_eq_some hf
  have hoid : order.id = ti0.order_id := by
    have := bne_eq_false_iff_eq.mp h3
    exact this
  have hinj := List.inj_on_of_nodup_map hord
  -- the result state, projected
  have horders : db'.orders = db.orders.map (fun o =>
      if o.id = order.id then bump_total order (-ti0.price_gross_snapshot) else o) := by
    rw [← h]
    cases hga : sec.is_ga <;> simp [hga, ga_increment, updateOrderById]
  have hinst : db'.ticket_instances = db.ticket_instances.filter (fun t => t.id != tiid) := by
    rw [← h]
    cases hga : sec.is_ga <;> simp [hga, ga_increment, updateOrderById]
  -- the sum decomposition for the order that loses the item
  have hsum_rest : ∀ oid, orderItemsSum db' oid =
      orderItemsSum db oid - (if ti0.order_id = oid then ti0.price_gross_snapshot else 0) := by
    intro oid
    simp only [orderItemsSum, hinst, List.filter_filter]
    by_cases hc : ti0.order_id = oid
    · rw [if_pos hc]
      have hsplit := gross_sum_split (db.ticket_instances.filter
        (fun t => t.order_id == oid)) (fun t => t.id == tiid)
      have hone : (db.ticket_instances.filter (fun t => t.order_id == oid)).filter
          (fun t => t.id == tiid) = [ti0] := by
        apply filter_id_eq_singleton
        · exact hti_nd.sublist ((List.filter_sublist _).map _)
        · exact List.mem_filter.mpr ⟨hti0_mem, by simp [hc]⟩
        · exact hti0_id
      rw [hone] at hsplit
      have hcomm : (db.ticket_instances.filter (fun t => t.order_id == oid)).filter
          (fun t => !(t.id == tiid)) =
          db.ticket_instances.filter (fun t => t.order_id == oid && t.id != tiid) := by
        rw [List.filter_filter]
        apply List.filter_congr
        intro t _
        cases h1' : (t.order_id == oid) <;> cases h2' : (t.id == tiid) <;> simp [h1', h2', bne]
      rw [hcomm] at hsplit
      simp only [List.map_cons, List.map_nil, List.sum_cons, List.sum_nil] at hsplit
      omega
    · rw [if_neg hc]
      have : db.ticket_instances.filter (fun t => t.order_id == oid && t.id != tiid) =
          db.ticket_instances.filter (fun t => t.order_id == oid) := by
        apply List.filter_congr
        intro t ht
        by_cases hto : t.order_id = oid
        · have htid : t.id ≠ tiid := by
            intro he
            have : t = ti0 := List.inj_on_of_nodup_map hti_nd ht hti0_mem
              (by rw [he, hti0_id])
            rw [this] at hto
            exact hc hto
          simp [hto, htid, bne]
        · simp [hto]
      rw [this]
      omega
  intro o' hmem'
  rw [horders] at hmem'
  obtain ⟨o0, ho0, heq⟩ := List.mem_map.mp hmem'
  obtain ⟨hs0, hp0⟩ := hinv o0 ho0
  by_cases he : o0.id = order.id
  · have ho0eq : o0 = order := hinj ho0 horder_mem he
    subst ho0eq
    rw [if_pos he] at heq
    subst heq
    have hrest_nonneg : 0 ≤ orderItemsSum db' o0.id := by
      simp only [orderItemsSum, hinst]
      apply List.sum_nonneg
      intro x hx
      obtain ⟨t, ht, rfl⟩ := List.mem_map.mp hx
      exact hgross t (List.mem_of_mem_filter (List.mem_of_mem_filter ht))
    have hsum := hsum_rest o0.id
    rw [if_pos hoid.symm] at hsum
    have htot : (bump_total o0 (-ti0.price_gross_snapshot)).total_price =
        if o0.total_price + -ti0.price_gross_snapshot > 0
        then o0.total_price + -ti0.price_gross_snapshot else 0 := rfl
    have hid : (bump_total o0 (-ti0.price_gross_snapshot)).id = o0.id := rfl
    rw [hid, htot]
    constructor
    · rw [hsum, ← hs0]
      split <;> omega
    · split <;> omega
  · rw [if_neg he] at heq
    subst heq
    have hsum := hsum_rest o0.id
    rw [if_neg (fun hc => he (by rw [hoid, hc]))] at hsum
    rw [hsum, ← hs0]
    exact ⟨by omega, hp0⟩

/-- The reaper leaves totals untouched, so non-negativity survives a sweep
(though the sum equality does not — see the counterexample). -/
lemma cleanup_totals_nonneg (db : DB) (now : Int) (limit : Nat)
    (hord : (db.orders.map (·.id)).Nodup)
    (hinv : ∀ o ∈ db.orders, 0 ≤ o.total_price) :
    ∀ o ∈ (cleanup_expired_reservations db now limit).1.orders, 0 ≤ o.total_price := by
  obtain ⟨ho, -, -⟩ := cleanup_fold_spec (sweptIds db now limit) db
    { orders_cancelled := 0, tickets_released := 0, ga_released := 0 }
    (sweptIds_nodup db now limit hord)
  intro o hmem
  rw [cleanup_expired_reservations, ho] at hmem
  obtain ⟨o0, ho0, heq⟩ := List.mem_map.mp hmem
  by_cases hc : o0.id ∈ sweptIds db now limit
  · rw [if_pos hc] at heq
    rw [← heq]
    exact hinv o0 ho0
  · rw [if_neg hc] at heq
    rw [← heq]
    exact hinv o0 ho0

/-- **C7 (counterexample).** The reaper breaks the "total equals item sum"
invariant: sweeping the expired order of `c4DB` deletes its line item but
leaves `total_price` at 12.30, so the CANCELLED order has total 12.30 and an
item sum of 0. -/
theorem reaper_breaks_total_sum :
    TotalInv c4DB ∧
    ((cleanup_expired_reservations c4DB 100 10).1.orders.find? (fun o => o.id == 1)).map
      (fun o => (o.total_price, o.status)) = some ((1230 : Int), OrderStatus.CANCELLED) ∧
    orderItemsSum (cleanup_expired_reservations c4DB 100 10).1 1 = 0 ∧
    ¬ TotalInv (cleanup_expired_reservations c4DB 100 10).1 := by
  refine ⟨?_, by decide, by decide, ?_⟩
  · unfold TotalInv
    decide
  · unfold TotalInv
    decide

/-- **C7 (amended).** The invariant "every order's `total_price` equals the
sum of its line items' gross price snapshots and is never negative" is
preserved by `reserve_ticket`, `remove_ticket_instance`, `checkout` (hence
`process_order`), `reopen_cart` and `finalize_payment` (under the schema
primary-key/check-constraint assumptions).  The reaper preserves
non-negativity of every total, but *not* the sum equality: it deletes the
swept order's line items without resetting `total_price`. -/
theorem order_total_invariant_spec :
    (∀ (db : DB) (uid eid tid : Nat) (sid : Option Nat) (now : Int) o ti db',
      (db.orders.map (·.id)).Nodup →
      (∀ o2 ∈ db.orders, o2.id < db.next_order_id) →
      (∀ t ∈ db.ticket_instances, t.order_id < db.next_order_id) →
      (∀ e ∈ db.event_ticket_types, 0 ≤ e.price_net ∧ 0 ≤ e.vat_rate) →
      reserve_ticket db uid eid tid sid now = .ok (o, ti, db') →
      TotalInv db → TotalInv db') ∧
    (∀ (db : DB) (uid tiid : Nat) db',
      (db.orders.map (·.id)).Nodup →
      (db.ticket_instances.map (·.id)).Nodup →
      (∀ t ∈ db.ticket_instances, 0 ≤ t.price_gross_snapshot) →
      remove_ticket_instance db uid tiid = .ok db' →
      TotalInv db → TotalInv db') ∧
    (∀ (db : DB) (uid : Nat) (now : Int) o db',
      (db.orders.map (·.id)).Nodup →
      checkout db uid now = .ok (o, db') → TotalInv db → TotalInv db') ∧
    (∀ (db : DB) (uid : Nat) (now : Int) o db',
      (db.orders.map (·.id)).Nodup →
      reopen_cart db uid now = .ok (o, db') → TotalInv db → TotalInv db') ∧
    (∀ (db : DB) (uid pid : Nat) (success : Bool) (now : Int) p db',
      (db.orders.map (·.id)).Nodup →
      finalize_payment db uid pid success now = .ok (p, db') →
      TotalInv db → TotalInv db') ∧
    (∀ (db : DB) (now : Int) (limit : Nat),
      (db.orders.map (·.id)).Nodup →
      (∀ o ∈ db.orders, 0 ≤ o.total_price) →
      ∀ o ∈ (cleanup_expired_reservations db now limit).1.orders, 0 ≤ o.total_price) := by
  refine ⟨?_, ?_, ?_, ?_, ?_, ?_⟩
  · intro db uid eid tid sid now o ti db' h1 h2 h3 h4 h5 h6
    exact TotalInv_reserve_ticket h1 h2 h3 h4 h5 h6
  · intro db uid tiid db' h1 h2 h3 h4 h5
    exact TotalInv_remove_ticket_instance h1 h2 h3 h4 h5
  · intro db uid now o db' h1 h2 h3
    exact TotalInv_checkout h1 h2 h3
  · intro db uid now o db' h1 h2 h3
    exact TotalInv_reopen_cart h1 h2 h3
  · intro db uid pid success now p db' h1 h2 h3
    exact TotalInv_finalize_payment h1 h2 h3
  · intro db now limit h1 h2
    exact cleanup_totals_nonneg db now limit h1 h2

/-- Witness for the amended C7: the reaper run on the concrete scenario
keeps every total non-negative. -/
theorem order_total_invariant_spec_witness :
    ∀ o ∈ (cleanup_expired_reservations c4DB 100 10).1.orders, 0 ≤ o.total_price :=
  order_total_invariant_spec.2.2.2.2.2 c4DB 100 10 (by decide) (by decide)

/-! ## C5 — reserve / remove round trip -/

/-- With unique keys, the unique row with a key is what `find?` returns. -/
lemma find?_key_unique {α : Type} (key : α → Nat) {l : List α} (hnd : (l.map key).Nodup)
    {x : α} (hmem : x ∈ l) {k : Nat} (hk : key x = k) :
    l.find? (fun y => key y == k) = some x := by
  induction l with
  | nil => cases hmem
  | cons a t ih =>
    rw [List.map_cons, List.nodup_cons] at hnd
    rcases List.mem_cons.mp hmem with rfl | hmem'
    · rw [List.find?_cons_of_pos _ (by simp [hk])]
    · rw [List.find?_cons_of_neg _ ?_, ih hnd.2 hmem']
      simp only [beq_iff_eq]
      intro hak
      exact hnd.1 (List.mem_map.mpr ⟨x, hmem', by rw [hk, ← hak]⟩)

/-- Updating the matched row in place commutes with `find?` when ids are
unique and the replacement still satisfies the predicate. -/
lemma find?_map_update {l : List Order} {p : Order → Bool} {order : Order}
    (hnd : (l.map (·.id)).Nodup) (hf : l.find? p = some order) (order2 : Order)
    (hp2 : p order2 = true) :
    (l.map (fun x => if x.id = order.id then order2 else x)).find? p = some order2 := by
  induction l with
  | nil => cases hf
  | cons a t ih =>
    rw [List.map_cons, List.nodup_cons] at hnd
    cases ha : p a with
    | true =>
      rw [List.find?_cons_of_pos _ ha] at hf
      cases hf
      rw [List.map_cons, if_pos rfl, List.find?_cons_of_pos _ hp2]
    | false =>
      rw [List.find?_cons_of_neg _ (by simp [ha])] at hf
      have horder_t : order ∈ t := List.mem_of_find?_eq_some hf
      have hane : a.id ≠ order.id := by
        intro he
        exact hnd.1 (List.mem_map.mpr ⟨order, horder_t, he.symm⟩)
      rw [List.map_cons, if_neg hane, List.find?_cons_of_neg _ (by simp [ha])]
      exact ih hnd.2 hf

lemma load_ett_elim {db : DB} {tid eid : Nat} {ett : EventTicketType}
    (h : load_ett_for_event db tid eid = .ok ett) :
    ett ∈ db.event_ticket_types ∧ ett.id = tid := by
  simp only [load_ett_for_event] at h
  cases hf : db.event_ticket_types.find? (fun t => t.id == tid &&
      db.event_sectors.any (fun es => es.id == t.event_sector_id && es.event_id == eid)) with
  | none => rw [hf] at h; exact absurd h (by simp)
  | some t2 =>
    rw [hf] at h
    cases h
    refine ⟨List.mem_of_find?_eq_some hf, ?_⟩
    have := List.find?_some hf
    simp only [Bool.and_eq_true, beq_iff_eq] at this
    exact this.1

lemma resolveSector_elim {db : DB} {ett : EventTicketType} {es : EventSector} {sec : Sector}
    (h : resolveSector db ett = .ok (es, sec)) :
    db.event_sectors.find? (fun e => e.id == ett.event_sector_id) = some es ∧
      db.sectors.find? (fun s => s.id == es.sector_id) = some sec := by
  simp only [resolveSector] at h
  cases h1 : db.event_sectors.find? (fun e => e.id == ett.event_sector_id) with
  | none =>
    rw [h1] at h
    exact absurd h (by simp)
  | some es0 =>
    rw [h1] at h
    dsimp only at h
    cases h2 : db.sectors.find? (fun s => s.id == es0.sector_id) with
    | none =>
      rw [h2] at h
      exact absurd h (by simp)
    | some sec0 =>
      rw [h2] at h
      dsimp only at h
      rw [Except.ok.injEq, Prod.mk.injEq] at h
      obtain ⟨he, hs⟩ := h
      subst he
      subst hs
      exact ⟨rfl, h2⟩

lemma ga_decrement_ok_eq {db : DB} {esid : Nat} {db2 : DB}
    (h : ga_decrement db esid = .ok db2) :
    db2 = { db with event_sectors := db.event_sectors.map (fun es =>
        if es.id == esid && tlPos es.tickets_left
        then { es with tickets_left := es.tickets_left.map (· - 1) } else es) } ∧
      db.event_sectors.any (fun es => es.id == esid && tlPos es.tickets_left) = true := by
  rw [ga_decrement] at h
  split at h
  · cases h
    exact ⟨rfl, by assumption⟩
  · cases h

lemma upsert_projs (db : DB) (uid : Nat) :
    (upsertPendingOrder db uid).ticket_instances = db.ticket_instances ∧
    (upsertPendingOrder db uid).event_sectors = db.event_sectors ∧
    (upsertPendingOrder db uid).event_ticket_types = db.event_ticket_types ∧
    (upsertPendingOrder db uid).sectors = db.sectors ∧
    (upsertPendingOrder db uid).next_ticket_instance_id = db.next_ticket_instance_id := by
  rw [upsertPendingOrder]
  split
  · exact ⟨rfl, rfl, rfl, rfl, rfl⟩
  · exact ⟨rfl, rfl, rfl, rfl, rfl⟩

lemma require_order_elim {db : DB} {uid : Nat} {st : OrderStatus} {msg : String} {order : Order}
    (h : require_order db uid st msg = .ok order) :
    db.orders.find? (fun o => o.user_id == uid && o.status == st) = some order ∧
      order ∈ db.orders ∧ order.user_id = uid ∧ order.status = st := by
  simp only [require_order] at h
  cases hf : db.orders.find? (fun o => o.user_id == uid && o.status == st) with
  | none => rw [hf] at h; exact absurd h (by simp)
  | some o2 =>
    rw [hf] at h
    cases h
    have := List.find?_some hf
    simp only [Bool.and_eq_true, beq_iff_eq] at this
    exact ⟨rfl, List.mem_of_find?_eq_some hf, this.1, this.2⟩

/-- GA round trip: a successful GA reservation followed by removal of the
created ticket instance restores every sector's `tickets_left` to its
pre-reservation value (the decrement and the increment cancel). -/
lemma ga_reserve_remove_roundtrip {db : DB} {uid eid tid : Nat} {now : Int}
    {o : Order} {ti : TicketInstance} {db' : DB}
    (hordN : (db.orders.map (·.id)).Nodup)
    (hordF : ∀ o2 ∈ db.orders, o2.id < db.next_order_id)
    (htiF : ∀ t ∈ db.ticket_instances, t.id < db.next_ticket_instance_id)
    (hettN : (db.event_ticket_types.map (·.id)).Nodup)
    (hesN : (db.event_sectors.map (·.id)).Nodup)
    (h : reserve_ticket db uid eid tid none now = .ok (o, ti, db')) :
    ∃ db'', remove_ticket_instance db' uid ti.id = .ok db'' ∧
      ∀ sid2, sectorTicketsLeft db'' sid2 = sectorTicketsLeft db sid2 := by
  obtain ⟨event, hm⟩ := reserve_ticket_ok_main h
  obtain ⟨ett, es, sec, order, db2, hett1, hres, hga, h3, h6, hto, hsn, hidti, hettid,
    hg, hfin⟩ := reserve_ticket_main_ga_elim hm
  obtain ⟨hup_inst, hup_es, hup_ett, hup_sec, hup_next⟩ := upsert_projs db uid
  obtain ⟨hdb2, hany⟩ := ga_decrement_ok_eq h6
  obtain ⟨hfind1, horder_mem1, horder_user, horder_status⟩ := require_order_elim h3
  obtain ⟨hfes, hfsec⟩ := resolveSector_elim hres
  obtain ⟨hett_mem, hett_id⟩ := load_ett_elim hett1
  have hnd1 : ((upsertPendingOrder db uid).orders.map (·.id)).Nodup :=
    upsert_orders_nodup db uid hordN hordF
  rw [hup_es] at hany
  have hdb' : db' = updateOrderById
      { db2 with ticket_instances := db2.ticket_instances ++ [ti],
                 next_ticket_instance_id := db2.next_ticket_instance_id + 1 }
      order.id (fun _ => extend_reservation (bump_total order ti.price_gross_snapshot) now) := by
    have := congrArg (fun r => r.2.2) hfin
    simpa [finishReservation] using this
  have P1 : db'.ticket_instances = db.ticket_instances ++ [ti] := by
    rw [hdb', hdb2]
    exact congrArg (· ++ [ti]) hup_inst
  have P2 : db'.orders = (upsertPendingOrder db uid).orders.map
      (fun x => if x.id = order.id
        then extend_reservation (bump_total order ti.price_gross_snapshot) now else x) := by
    rw [hdb', hdb2]
    rfl
  have P3 : db'.event_sectors = db.event_sectors.map (fun e =>
      if e.id == ett.event_sector_id && tlPos e.tickets_left
      then { e with tickets_left := e.tickets_left.map (· - 1) } else e) := by
    have h0 : db'.event_sectors = (upsertPendingOrder db uid).event_sectors.map (fun e =>
        if e.id == ett.event_sector_id && tlPos e.tickets_left
        then { e with tickets_left := e.tickets_left.map (· - 1) } else e) := by
      rw [hdb', hdb2]
      rfl
    rw [h0, hup_es]
  have P4 : db'.event_ticket_types = db.event_ticket_types := by
    rw [hdb', hdb2]
    exact hup_ett
  have P5 : db'.sectors = db.sectors := by
    rw [hdb', hdb2]
    exact hup_sec
  have hti_id_eq : ti.id = db.next_ticket_instance_id := by
    rw [hidti, hdb2]
    exact hup_next
  -- step A: the created instance is found by its fresh primary key
  have hfindti : db'.ticket_instances.find? (fun t => t.id == ti.id) = some ti := by
    rw [P1, List.find?_append]
    have hnone : db.ticket_instances.find? (fun t => t.id == ti.id) = none := by
      rw [List.find?_eq_none]
      intro t ht
      simp only [beq_iff_eq]
      intro he
      have := htiF t ht
      rw [hti_id_eq] at he
      omega
    rw [hnone]
    simp
  -- step B: the user's PENDING order is the updated row
  have horder2_find : require_order db' uid .PENDING "Item not found in order" = .ok
      (extend_reservation (bump_total order ti.price_gross_snapshot) now) := by
    simp only [require_order, P2]
    rw [find?_map_update hnd1 hfind1 _
      (by simp [extend_reservation, bump_total, horder_user, horder_status])]
  -- step C: ownership guard passes
  have hguard : ((extend_reservation (bump_total order ti.price_gross_snapshot) now).id
      != ti.order_id) = false := by
    simp [extend_reservation, bump_total, hto]
  -- step D: the instance's ticket type resolves to the reserved one
  have hfett : db'.event_ticket_types.find? (fun t => t.id == ti.event_ticket_type_id)
      = some ett := by
    rw [P4, hettid]
    exact find?_key_unique (fun t => t.id) hettN hett_mem hett_id
  -- step E: the sector chain resolves to the decremented row, same GA sector
  have hresolve' : resolveSector db' ett = .ok
      ((if es.id == ett.event_sector_id && tlPos es.tickets_left
        then { es with tickets_left := es.tickets_left.map (· - 1) } else es), sec) := by
    simp only [resolveSector, P3]
    rw [List.find?_map]
    have hpred : ((fun e : EventSector => e.id == ett.event_sector_id) ∘ (fun e =>
        if e.id == ett.event_sector_id && tlPos e.tickets_left
        then { e with tickets_left := e.tickets_left.map (· - 1) } else e))
        = (fun e : EventSector => e.id == ett.event_sector_id) := by
      funext e
      simp only [Function.comp]
      split <;> rfl
    rw [hpred, hfes, Option.map_some']
    dsimp only
    have hsid : (if es.id == ett.event_sector_id && tlPos es.tickets_left
        then { es with tickets_left := es.tickets_left.map (· - 1) } else es).sector_id
        = es.sector_id := by
      split <;> rfl
    rw [hsid, P5, hfsec]
  -- run the removal
  obtain ⟨db'', hrem⟩ : ∃ x, remove_ticket_instance db' uid ti.id = .ok x := by
    simp only [remove_ticket_instance, bind, Except.bind, pure, Except.pure,
      hfindti, horder2_find, hguard, hfett, hresolve', hga, Bool.false_eq_true,
      if_neg, ite_false, ite_true]
    exact ⟨_, rfl⟩
  have hes'' : db''.event_sectors = db'.event_sectors.map (fun e =>
      if e.id == ett.event_sector_id
      then { e with tickets_left := e.tickets_left.map (· + 1) } else e) := by
    simp only [remove_ticket_instance, bind, Except.bind, pure, Except.pure,
      hfindti, horder2_find, hguard, hfett, hresolve', hga, Bool.false_eq_true,
      if_neg, ite_false, ite_true, Except.ok.injEq] at hrem
    rw [← hrem]
    rfl
  refine ⟨db'', hrem, ?_⟩
  intro sid2
  rw [sectorTicketsLeft, sectorTicketsLeft, hes'', P3, List.map_map, List.find?_map]
  have hpred2 : ((fun e : EventSector => e.id == sid2) ∘ ((fun e =>
      if e.id == ett.event_sector_id
      then { e with tickets_left := e.tickets_left.map (· + 1) } else e) ∘ (fun e =>
      if e.id == ett.event_sector_id && tlPos e.tickets_left
      then { e with tickets_left := e.tickets_left.map (· - 1) } else e)))
      = (fun e : EventSector => e.id == sid2) := by
    funext e
    simp only [Function.comp]
    by_cases h1' : (e.id == ett.event_sector_id && tlPos e.tickets_left) = true
    · rw [if_pos h1']
      simp only [Bool.and_eq_true] at h1'
      rw [if_pos h1'.1]
    · rw [if_neg h1']
      split <;> rfl
  rw [hpred2]
  cases hfind2 : db.event_sectors.find? (fun e => e.id == sid2) with
  | none => rfl
  | some r =>
    dsimp only [Option.map, Function.comp]
    have hrid : r.id = sid2 := by simpa using List.find?_some hfind2
    by_cases hsidc : sid2 = ett.event_sector_id
    · have hrtl : tlPos r.tickets_left = true := by
        obtain ⟨e2, he2mem, he2p⟩ := List.any_eq_true.mp hany
        simp only [Bool.and_eq_true, beq_iff_eq] at he2p
        have : e2 = r := List.inj_on_of_nodup_map hesN he2mem
          (List.mem_of_find?_eq_some hfind2) (by rw [he2p.1, hrid, hsidc])
        rw [← this]
        exact he2p.2
      rw [if_pos (by simp [hrid, hsidc, hrtl])]
      rw [if_pos (by simp [hrid, hsidc, hrtl])]

      congr 1
      show { r with tickets_left := (r.tickets_left.map (· - 1)).map (· + 1) }.tickets_left
          = r.tickets_left
      rw [Option.map_map]
      cases r.tickets_left with
      | none => rfl
      | some v =>
        simp [Function.comp]
    · rw [if_neg (by simp [hrid, hsidc]), if_neg (by simp [hrid, hsidc])]

/-- Seated round trip: a successful seated reservation followed by removal of
the created ticket instance restores the ticket-instance table exactly, so the
(event, seat) pair is free again (`seatConflict` is false, as it was before the
reservation) and a later reservation of that seat is not blocked by it. -/
lemma seated_reserve_remove_roundtrip {db : DB} {uid eid tid s : Nat} {now : Int}
    {o : Order} {ti : TicketInstance} {db' : DB}
    (hordN : (db.orders.map (·.id)).Nodup)
    (hordF : ∀ o2 ∈ db.orders, o2.id < db.next_order_id)
    (htiF : ∀ t ∈ db.ticket_instances, t.id < db.next_ticket_instance_id)
    (hettN : (db.event_ticket_types.map (·.id)).Nodup)
    (h : reserve_ticket db uid eid tid (some s) now = .ok (o, ti, db')) :
    ∃ db'', remove_ticket_instance db' uid ti.id = .ok db'' ∧
      db''.ticket_instances = db.ticket_instances ∧
      seatConflict db'' eid s = false := by
  obtain ⟨event, hm⟩ := reserve_ticket_ok_main h
  obtain ⟨ett, es, sec, order, hett1, hres, hga, h3, hsc, hto, hsid, hev, hidti, hettid,
    hg, hfin⟩ := reserve_ticket_main_seated_elim hm
  obtain ⟨hup_inst, hup_es, hup_ett, hup_sec, hup_next⟩ := upsert_projs db uid
  obtain ⟨hfind1, horder_mem1, horder_user, horder_status⟩ := require_order_elim h3
  obtain ⟨hfes, hfsec⟩ := resolveSector_elim hres
  obtain ⟨hett_mem, hett_id⟩ := load_ett_elim hett1
  have hnd1 : ((upsertPendingOrder db uid).orders.map (·.id)).Nodup :=
    upsert_orders_nodup db uid hordN hordF
  have hdb' : db' = updateOrderById
      { upsertPendingOrder db uid with
        ticket_instances := (upsertPendingOrder db uid).ticket_instances ++ [ti],
        next_ticket_instance_id := (upsertPendingOrder db uid).next_ticket_instance_id + 1 }
      order.id (fun _ => extend_reservation (bump_total order ti.price_gross_snapshot) now) := by
    have := congrArg (fun r => r.2.2) hfin
    simpa [finishReservation] using this
  have P1 : db'.ticket_instances = db.ticket_instances ++ [ti] := by
    rw [hdb']
    exact congrArg (· ++ [ti]) hup_inst
  have P2 : db'.orders = (upsertPendingOrder db uid).orders.map
      (fun x => if x.id = order.id
        then extend_reservation (bump_total order ti.price_gross_snapshot) now else x) := by
    rw [hdb']
    rfl
  have P3 : db'.event_sectors = db.event_sectors := by
    rw [hdb']
    exact hup_es
  have P4 : db'.event_ticket_types = db.event_ticket_types := by
    rw [hdb']
    exact hup_ett
  have P5 : db'.sectors = db.sectors := by
    rw [hdb']
    exact hup_sec
  have hti_id_eq : ti.id = db.next_ticket_instance_id := by
    rw [hidti]
    exact hup_next
  have hfindti : db'.ticket_instances.find? (fun t => t.id == ti.id) = some ti := by
    rw [P1, List.find?_append]
    have hnone : db.ticket_instances.find? (fun t => t.id == ti.id) = none := by
      rw [List.find?_eq_none]
      intro t ht
      simp only [beq_iff_eq]
      intro he
      have := htiF t ht
      rw [hti_id_eq] at he
      omega
    rw [hnone]
    simp
  have horder2_find : require_order db' uid .PENDING "Item not found in order" = .ok
      (extend_reservation (bump_total order ti.price_gross_snapshot) now) := by
    simp only [require_order, P2]
    rw [find?_map_update hnd1 hfind1 _
      (by simp [extend_reservation, bump_total, horder_user, horder_status])]
  have hguard : ((extend_reservation (bump_total order ti.price_gross_snapshot) now).id
      != ti.order_id) = false := by
    simp [extend_reservation, bump_total, hto]
  have hfett : db'.event_ticket_types.find? (fun t => t.id == ti.event_ticket_type_id)
      = some ett := by
    rw [P4, hettid]
    exact find?_key_unique (fun t => t.id) hettN hett_mem hett_id
  have hresolve' : resolveSector db' ett = .ok (es, sec) := by
    simp only [resolveSector, P3]
    rw [hfes]
    dsimp only
    rw [P5, hfsec]
  obtain ⟨db'', hrem⟩ : ∃ x, remove_ticket_instance db' uid ti.id = .ok x := by
    simp only [remove_ticket_instance, bind, Except.bind, pure, Except.pure,
      hfindti, horder2_find, hguard, hfett, hresolve', hga, Bool.false_eq_true,
      if_false, ite_false]
    exact ⟨_, rfl⟩
  have hti'' : db''.ticket_instances = db.ticket_instances := by
    simp only [remove_ticket_instance, bind, Except.bind, pure, Except.pure,
      hfindti, horder2_find, hguard, hfett, hresolve', hga, Bool.false_eq_true,
      if_false, ite_false, Except.ok.injEq] at hrem
    rw [← hrem]
    show db'.ticket_instances.filter (fun t => t.id != ti.id) = db.ticket_instances
    rw [P1, List.filter_append]
    have h1 : db.ticket_instances.filter (fun t => t.id != ti.id) = db.ticket_instances := by
      apply List.filter_eq_self.mpr
      intro t ht
      have := htiF t ht
      simp only [bne_iff_ne, ne_eq]
      rw [hti_id_eq]
      omega
    have h2 : [ti].filter (fun t => t.id != ti.id) = [] := by
      simp
    rw [h1, h2, List.append_nil]
  refine ⟨db'', hrem, hti'', ?_⟩
  rw [seatConflict, hti'', ← hup_inst]
  exact hsc

/-- A concrete catalogue for exercising the round trip: one ON_SALE event with
a single GA sector of 5 remaining tickets; no orders or instances yet. -/
def rtDB : DB :=
  { emptyDB with
    events := [{ id := 1, status := .ON_SALE, sales_start := 0, sales_end := 1000,
                 max_tickets_per_user := none, holder_data_required := false }],
    sectors := [{ id := 1, is_ga := true }],
    event_sectors := [{ id := 1, event_id := 1, sector_id := 1, tickets_left := some 5 }],
    event_ticket_types := [{ id := 1, event_sector_id := 1, ticket_type_id := 1,
                             price_net := 1000, vat_rate := 123 }] }

/-- **C5.** Reserve-then-remove round trip, under the schema's primary-key and
sequence-freshness constraints. GA half: a successful GA reservation followed
by `remove_ticket_instance` on the created instance succeeds and restores every
sector's `tickets_left` to its pre-reservation value (the conditional decrement
and the increment cancel). Seated half: a successful seated reservation
followed by removal succeeds and restores the ticket-instance table exactly, so
the (event, seat) row is gone and `seatConflict` for that seat is false again —
the seat is free for a subsequent reservation. -/
theorem reserve_remove_roundtrip {db : DB} {uid eid tid : Nat} {now : Int}
    (hordN : (db.orders.map (·.id)).Nodup)
    (hordF : ∀ o2 ∈ db.orders, o2.id < db.next_order_id)
    (htiF : ∀ t ∈ db.ticket_instances, t.id < db.next_ticket_instance_id)
    (hettN : (db.event_ticket_types.map (·.id)).Nodup)
    (hesN : (db.event_sectors.map (·.id)).Nodup) :
    (∀ {o : Order} {ti : TicketInstance} {db' : DB},
      reserve_ticket db uid eid tid none now = .ok (o, ti, db') →
      ∃ db'', remove_ticket_instance db' uid ti.id = .ok db'' ∧
        ∀ sid2, sectorTicketsLeft db'' sid2 = sectorTicketsLeft db sid2) ∧
    (∀ {s : Nat} {o : Order} {ti : TicketInstance} {db' : DB},
      reserve_ticket db uid eid tid (some s) now = .ok (o, ti, db') →
      ∃ db'', remove_ticket_instance db' uid ti.id = .ok db'' ∧
        db''.ticket_instances = db.ticket_instances ∧
        seatConflict db'' eid s = false) :=
  ⟨fun h => ga_reserve_remove_roundtrip hordN hordF htiF hettN hesN h,
   fun h => seated_reserve_remove_roundtrip hordN hordF htiF hettN h⟩

/-- Witness for C5 at the concrete catalogue `rtDB`. -/
theorem reserve_remove_roundtrip_witness :
    ((rtDB.orders.map (·.id)).Nodup ∧
     (∀ o2 ∈ rtDB.orders, o2.id < rtDB.next_order_id) ∧
     (∀ t ∈ rtDB.ticket_instances, t.id < rtDB.next_ticket_instance_id) ∧
     (rtDB.event_ticket_types.map (·.id)).Nodup ∧
     (rtDB.event_sectors.map (·.id)).Nodup) ∧
    ((∀ {o : Order} {ti : TicketInstance} {db' : DB},
        reserve_ticket rtDB 1 1 1 none 10 = .ok (o, ti, db') →
        ∃ db'', remove_ticket_instance db' 1 ti.id = .ok db'' ∧
          ∀ sid2, sectorTicketsLeft db'' sid2 = sectorTicketsLeft rtDB sid2) ∧
     (∀ {s : Nat} {o : Order} {ti : TicketInstance} {db' : DB},
        reserve_ticket rtDB 1 1 1 (some s) 10 = .ok (o, ti, db') →
        ∃ db'', remove_ticket_instance db' 1 ti.id = .ok db'' ∧
          db''.ticket_instances = rtDB.ticket_instances ∧
          seatConflict db'' 1 s = false)) :=
  ⟨⟨by decide, by decide, by decide, by decide, by decide⟩,
   @reserve_remove_roundtrip rtDB 1 1 1 10 (by decide) (by decide) (by decide)
     (by decide) (by decide)⟩

end Ticketing




















